import Mathlib

/-!
Verification of the saffron-lang interpreter core against its design
specification.  The development shallowly embeds, from the C sources,

* the cooperative task scheduler (`src/libc/async.c`),
* the structural type checker and its subtyping predicate (`src/types.c`),
* the Pratt/recursive-descent parser (`src/ast/astparse.c`),

and proves or refutes the spec's claims about them.  Machine doubles are
modelled by `Rat` (the claims under study never depend on rounding), pointer
identity of type descriptors by natural-number ids into an explicit heap, and
general recursion by explicit fuel.
-/

namespace Saffron

/-- Runtime values as far as the scheduler observes them (`value.h`).
Numbers are C doubles, modelled as `Rat`. -/
inductive RVal where
  | num (q : Rat)
  | vbool (b : Bool)
  | vnil
  | vstr (s : String)
  | vatom (s : String)
  | vlist (items : List RVal)

/-- `valuesEqual(v, NIL_VAL)`. -/
def RVal.isNil : RVal → Bool
  | .vnil => true
  | _ => false

/-- `IS_LIST`. -/
def RVal.isList : RVal → Bool
  | .vlist _ => true
  | _ => false

/-- `IS_NUMBER`. -/
def RVal.isNumber : RVal → Bool
  | .num _ => true
  | _ => false

/-- `AS_NUMBER`; reading a non-number as a number is undefined behaviour in C,
modelled as 0 (never reached by the claims under study). -/
def RVal.asNumber : RVal → Rat
  | .num q => q
  | _ => 0

/-- C `trunc` (round toward zero) on a double, yielding the `int` it is
assigned to in `handle_yield_value` and `getTasks`. -/
def ratTrunc (q : Rat) : Int :=
  if q < 0 then ⌈q⌉ else ⌊q⌋

/-- `getListItem(list, i)` lives in `src/libc/list.c`, which is not part of
the sources under review.  Modelled from the spec: a yield directive is a
2-element list `[op, arg]`, so item `i` is just the `i`-th element (nil when
absent). -/
def getListItem (items : List RVal) (i : Nat) : RVal :=
  items.getD i .vnil

/-- Call frames are identified by id; the scheduler only moves them between
queues and writes their `stored` slot. -/
abbrev FrameId := Nat

/-- The scheduler state: the VM ready queue (`vm.tasks`, `vm.currentTask`,
`currentFrame`) plus the waiter set of `AsyncHandler` – parallel arrays of
sleepers with wake times and reader/writer frames with their fds – together
with each frame's `stored` slot and the runtime errors raised so far. -/
structure Sched where
  tasks : List FrameId
  currentTask : Nat
  currentFrame : FrameId
  sleepers : List FrameId
  sleeperTimes : List Rat
  readers : List FrameId
  readerFds : List RVal
  writers : List FrameId
  writerFds : List RVal
  stored : List (FrameId × RVal)
  errors : List String

/-- `runtimeError(...)` (defined in the VM, outside the sources under
review).  Modelled from the spec: "invalid yield values … raise a runtime
error"; we record the formatted message. -/
def runtimeError (msg : String) (st : Sched) : Sched :=
  { st with errors := st.errors ++ [msg] }

/-- Set a frame's `stored` slot. -/
def setStored (f : FrameId) (v : RVal) : List (FrameId × RVal) → List (FrameId × RVal)
  | [] => [(f, v)]
  | (g, w) :: rest => if g = f then (f, v) :: rest else (g, w) :: setStored f v rest

/-- `popValueArray(arr, i)`: remove the element at index `i`. -/
def popAt (l : List FrameId) (i : Nat) : List FrameId :=
  l.eraseIdx i

/-- The sleeper scan of `getTasks`: traverse the parallel arrays
`sleepers`/`sleeper_times`; every entry whose wake time has passed is removed
(the in-place `pop` + `i--` of the C loop) and collected, in traversal order,
for appending to the ready queue.  Returns the remaining sleepers, their
times, and the frames to move. -/
def scanSleepers (now : Rat) :
    List FrameId → List Rat → List FrameId × List Rat × List FrameId
  | [], _ => ([], [], [])
  | s :: ss, [] => (s :: ss, [], [])
  | s :: ss, t :: ts =>
    let (ks, kts, moved) := scanSleepers now ss ts
    if t < now then (ks, kts, s :: moved) else (s :: ks, t :: kts, moved)

/-- The reader/writer scan of `getTasks`: traverse the parallel arrays of
frames and fds; every entry whose (truncated) fd tests ready is removed and
collected in order. -/
def scanWaiters (ready : Int → Bool) :
    List FrameId → List RVal → List FrameId × List RVal × List FrameId
  | [], _ => ([], [], [])
  | s :: ss, [] => (s :: ss, [], [])
  | s :: ss, t :: ts =>
    let (ks, kts, moved) := scanWaiters ready ss ts
    if ready (ratTrunc t.asNumber) then (ks, kts, s :: moved)
    else (s :: ks, t :: kts, moved)

/-- Mark each moved frame's `stored` slot `true` and append the frames to the
ready queue tail, as both move loops of `getTasks` do. -/
def moveToReady (moved : List FrameId) (st : Sched) : Sched :=
  { st with
    tasks := st.tasks ++ moved
    stored := moved.foldl (fun acc f => setStored f (.vbool true) acc) st.stored }

/-- `getTasks()` (`src/libc/async.c:129`), the pump.  `now` abstracts
`getTime()` (read once; the clock is external), and `readyIn`/`readyOut`
abstract which file descriptors the `select` call reports readable/writable
(the 200 ms timeout is real time, outside the model).  `select`'s return
value is zero exactly when no watched fd is ready.  Faithful to the source,
including the early `return 0` when the sleeper set is empty. -/
def getTasks (now : Rat) (readyIn readyOut : Int → Bool) (st : Sched) :
    Int × Sched :=
  if st.sleepers.length = 0 then
    (0, st)
  else
    let (ks, kts, movedS) := scanSleepers now st.sleepers st.sleeperTimes
    let found : Int := if movedS.isEmpty then -1 else 1
    let st := moveToReady movedS { st with sleepers := ks, sleeperTimes := kts }
    let readStatus :=
      st.readerFds.any (fun v => readyIn (ratTrunc v.asNumber)) ||
      st.writerFds.any (fun v => readyOut (ratTrunc v.asNumber))
    if !readStatus then
      (0, st)
    else
      let (kr, krfd, movedR) := scanWaiters readyIn st.readers st.readerFds
      let found := if movedR.isEmpty then found else 1
      let st := moveToReady movedR { st with readers := kr, readerFds := krfd }
      let (kw, kwfd, movedW) := scanWaiters readyOut st.writers st.writerFds
      let found := if movedW.isEmpty then found else 1
      let st := moveToReady movedW { st with writers := kw, writerFds := kwfd }
      (found, st)

/-- The shared tail of the three waiter-registration branches of
`handle_yield_value`: remove the current frame from the ready queue, pump if
the current index ran off the end, then wrap the index.  (`x % 0 = x` models
the C modulo of an empty queue, which is undefined behaviour there.) -/
def advanceAfterRemove (now : Rat) (readyIn readyOut : Int → Bool)
    (st : Sched) : Sched :=
  let st := { st with tasks := popAt st.tasks st.currentTask }
  let st := if st.currentTask ≥ st.tasks.length then
              (getTasks now readyIn readyOut st).2
            else st
  { st with currentTask := st.currentTask % st.tasks.length }

/-- `handle_yield_value(value)` (`src/libc/async.c:52`). -/
def handle_yield_value (now : Rat) (readyIn readyOut : Int → Bool)
    (value : RVal) (st : Sched) : Sched :=
  match value with
  | .vlist items =>
    let arg := getListItem items 0
    let st := if arg.isNil || !arg.isNumber then
                runtimeError "Yielded invalid type" st
              else st
    let op : Int := ratTrunc arg.asNumber
    if op = 1 then
      -- SLEEP
      let timeArg := getListItem items 1
      let st := if arg.isNil || !timeArg.isNumber then
                  runtimeError "Yielded invalid type" st
                else st
      let time := timeArg.asNumber
      let st := { st with
        sleepers := st.sleepers ++ [st.currentFrame]
        sleeperTimes := st.sleeperTimes ++ [now + time] }
      advanceAfterRemove now readyIn readyOut st
    else if op = 2 then
      -- WAIT_IO_READ
      let fdArg := getListItem items 1
      let st := if arg.isNil || !fdArg.isNumber then
                  runtimeError "Yielded invalid type" st
                else st
      let st := { st with
        readers := st.readers ++ [st.currentFrame]
        readerFds := st.readerFds ++ [fdArg] }
      advanceAfterRemove now readyIn readyOut st
    else if op = 4 then
      -- WAIT_IO_WRITE
      let fdArg := getListItem items 1
      let st := if arg.isNil || !fdArg.isNumber then
                  runtimeError "Yielded invalid type" st
                else st
      let st := { st with
        writers := st.writers ++ [st.currentFrame]
        writerFds := st.writerFds ++ [fdArg] }
      advanceAfterRemove now readyIn readyOut st
    else
      runtimeError ("Invalid yield op " ++ toString op) st
  | _ =>
    let st := if st.currentTask + 1 ≥ st.tasks.length then
                (getTasks now readyIn readyOut st).2
              else st
    { st with currentTask := (st.currentTask + 1) % st.tasks.length }

/-- The empty scheduler state, a convenience base for concrete scenarios. -/
def emptySched : Sched :=
  { tasks := [], currentTask := 0, currentFrame := 0, sleepers := [],
    sleeperTimes := [], readers := [], readerFds := [], writers := [],
    writerFds := [], stored := [], errors := [] }

end Saffron

namespace Saffron

/-! ## Type descriptors and subtyping (`src/types.c`)

Type descriptors are heap objects compared by pointer identity; we model them
as indices (`TypeId`) into an explicit heap list, so `sub = sup` on ids is
exactly the C pointer comparison.  `ValueArray` slots that may hold `NIL_VAL`
(an unannotated lambda parameter, an unset return type) are `Option TypeId`,
`none` playing the role of the null pointer that `AS_OBJ(NIL_VAL)` yields. -/

abbrev TypeId := Nat

/-- The six descriptor variants (`SimpleType`, `FunctorType`, `UnionType`,
`InterfaceType`, `GenericType`, `GenericTypeDefinition`). -/
inductive TypeDesc where
  | simple (superType : Option TypeId) (fields methods : List (String × Option TypeId))
      (genericArgs : List TypeId)
  | functor (arguments : List (Option TypeId)) (genericArgs : List TypeId)
      (returnType : Option TypeId)
  | union (left right : TypeId)
  | interface (superType : Option TypeId) (fields methods : List (String × Option TypeId))
      (genericArgs : List TypeId)
  | generic (target : TypeId) (generics : List TypeId)
  | genericDef (xtends : Option TypeId) (name : String)

/-- The singleton descriptors, in the order `makeTypes()` allocates them. -/
def numberId : TypeId := 0
def nilId : TypeId := 1
def boolId : TypeId := 2
def atomId : TypeId := 3
def stringId : TypeId := 4
def neverId : TypeId := 5
def anyId : TypeId := 6
def listId : TypeId := 7
def mapId : TypeId := 8
def taskId : TypeId := 9

/-- The heap right after `makeTypes()`.  Ids 0–6 are the plain singletons
(`newSimpleType()`：no super, empty tables).  `createListTypeDef` /
`createMapTypeDef` / `createTaskTypeDef` live in `src/libc/*.c`, outside the
sources under review; modelled from the spec ("the generic targets `List`,
`Map`, `Task`") as Simple descriptors whose member tables are irrelevant to
the claims below. -/
def baseHeap : List TypeDesc :=
  [ .simple none [] [] [], .simple none [] [] [], .simple none [] [] [],
    .simple none [] [] [], .simple none [] [] [], .simple none [] [] [],
    .simple none [] [] [], .simple none [] [] [], .simple none [] [] [],
    .simple none [] [] [] ]

/-- One `TypeEnvironment`: value bindings, type bindings and the
generic-resolution table (`nil` entries are `none`). -/
structure TypeFrame where
  locals : List (String × Option TypeId)
  typeDefs : List (String × TypeId)
  genericResolutions : List (TypeId × Option TypeId)

/-- An empty scope, as `initTypeEnvironment` makes. -/
def emptyFrame : TypeFrame :=
  { locals := [], typeDefs := [], genericResolutions := [] }

/-- The type checker's mutable state: the descriptor heap, the environment
stack (`currentEnv`, head innermost), the error flags of `types.c`, and the
checker's three current-context globals. -/
structure CheckState where
  heap : List TypeDesc
  envs : List TypeFrame
  panicMode : Bool
  hadError : Bool
  diags : List String
  builtinModules : List (String × TypeId)
  modules : List (String × TypeId)
  currentClassType : Option TypeId
  currentAssignmentType : Option TypeId
  currentFuncType : Option TypeId

/-- `tableSet`: replace an existing key or append a new entry. -/
def tableSet {α : Type} (key : String) (v : α) :
    List (String × α) → List (String × α)
  | [] => [(key, v)]
  | (k, w) :: rest =>
    if k = key then (key, v) :: rest else (k, w) :: tableSet key v rest

/-- `tableGet`. -/
def tableGet {α : Type} (key : String) : List (String × α) → Option α
  | [] => none
  | (k, w) :: rest => if k = key then some w else tableGet key rest

/-- `valueTableSet` on a generic-resolution table (keys are descriptor
identities). -/
def resTableSet (key : TypeId) (v : Option TypeId) :
    List (TypeId × Option TypeId) → List (TypeId × Option TypeId)
  | [] => [(key, v)]
  | (k, w) :: rest =>
    if k = key then (key, v) :: rest else (k, w) :: resTableSet key v rest

/-- `valueTableGet` on a generic-resolution table. -/
def resTableGet (key : TypeId) : List (TypeId × Option TypeId) → Option (Option TypeId)
  | [] => none
  | (k, w) :: rest => if k = key then some w else resTableGet key rest

/-- `errorAt` of `types.c` (line 81): in panic mode nothing is printed;
otherwise enter panic mode, print the diagnostic and set `hadError`.  We
record just the message; the `[line N] Error at '…':` prefix is formatting. -/
def errorAtT (msg : String) (st : CheckState) : CheckState :=
  if st.panicMode then st
  else { st with panicMode := true, hadError := true, diags := st.diags ++ [msg] }

/-- `error` of `types.c` (synthetic token, same reporting path). -/
def errorT (msg : String) (st : CheckState) : CheckState :=
  errorAtT msg st

/-- `findGenericResolution`: walk the environment stack for the first table
containing the key.  A `nil` entry comes back as a null pointer through
`AS_OBJ`, which the caller's `if (inner)` treats as absent, so it is merged
into `none` here. -/
def findGenericResolution : List TypeFrame → TypeId → Option TypeId
  | [], _ => none
  | f :: rest, key =>
    match resTableGet key f.genericResolutions with
    | some v => v
    | none => findGenericResolution rest key

/-- The environment write of the generic-application-over-interface case
(`types.c:369`): bind each formal parameter of the interface to the
corresponding argument in the current (innermost) environment. -/
def bindResolutions (formals args : List TypeId) (envs : List TypeFrame) :
    List TypeFrame :=
  match envs with
  | [] => []
  | f :: rest =>
    let newRes := (formals.zip args).foldl
      (fun acc (p : TypeId × TypeId) => resTableSet p.1 (some p.2) acc)
      f.genericResolutions
    { f with genericResolutions := newRes } :: rest

/-- Write a resolution into the `i`-th frame of the stack (the frame
`resolveGenericArgument` found the open slot in). -/
def setResolutionAt (envs : List TypeFrame) (i : Nat) (key : TypeId)
    (v : Option TypeId) : List TypeFrame :=
  match envs, i with
  | [], _ => []
  | f :: rest, 0 =>
    { f with genericResolutions := resTableSet key v f.genericResolutions } :: rest
  | f :: rest, Nat.succ i => f :: setResolutionAt rest i key v

/-- Dereference a descriptor id in the heap. -/
def heapGet (h : List TypeDesc) (i : TypeId) : Option TypeDesc :=
  h.get? i


mutual

/-- `isSubType(subclass, superclass)` (`src/types.c:287`): the identity /
`Never` / `Any` tests and the switch on the subclass variant
(GenericApplication unwrapping, GenericParameter resolution); a `break`
falls through to the switch on the superclass variant, `isSubTypeSuper`.
The boolean result is paired with the threaded state: the generic-resolution
tables the call may write and the diagnostics the generic-arity check may
print.  General recursion is paid for with fuel (each nested call one unit);
fuel 0 answers `false`, and every claim below is settled at sufficient
fuel. -/
def isSubTypeF : Nat → CheckState → TypeId → TypeId → Bool × CheckState
  | 0, st, _, _ => (false, st)
  | Nat.succ fuel, st, sub, sup =>
    if sub = sup then (true, st)
    else if sup = neverId then (false, st)
    else if sup = anyId then (true, st)
    else
      match heapGet st.heap sub with
      | some (.generic target _) =>
        let (b, st') := isSubTypeF fuel st target sup
        if b then (true, st') else isSubTypeSuper fuel st' sub sup
      | some (.genericDef _ _) =>
        match findGenericResolution st.envs sub with
        | some inner => isSubTypeF fuel st inner sup
        | none => isSubTypeSuper fuel st sub sup
      | _ => isSubTypeSuper fuel st sub sup
termination_by structural fuel _ _ _ => fuel

/-- The switch on the superclass variant of `isSubType`
(`src/types.c:324-447`). -/
def isSubTypeSuper : Nat → CheckState → TypeId → TypeId → Bool × CheckState
  | 0, st, _, _ => (false, st)
  | Nat.succ fuel, st, sub, sup =>
    match heapGet st.heap sup with
    | some (.simple _ _ _ _) =>
      match heapGet st.heap sub with
      | some (.simple superT _ _ _) =>
        match superT with
        | none => (false, st)
        | some s => isSubTypeF fuel st s sup
      | _ => (false, st)
    | some (.functor supArgs _ supRet) =>
      match heapGet st.heap sub with
      | some (.functor subArgs _ subRet) =>
        if supArgs.length ≠ subArgs.length then (false, st)
        else
          let (ok, st) := isSubTypeArgsF fuel st subArgs supArgs
          if ok then isSubTypeOptF fuel st subRet supRet else (false, st)
      | _ => (false, st)
    | some (.generic supTarget supGenerics) =>
      match heapGet st.heap supTarget with
      | some (.interface _ _ _ tGenArgs) =>
        if supGenerics.length ≠ tGenArgs.length then
          (false, errorT "Type argument count mismatch in generic" st)
        else
          let st := { st with envs := bindResolutions tGenArgs supGenerics st.envs }
          isSubTypeF fuel st sub supTarget
      | _ =>
        match heapGet st.heap sub with
        | some (.generic subTarget subGenerics) =>
          if subGenerics.length ≠ supGenerics.length then (false, st)
          else
            let (ok, st) := isSubTypePairsF fuel st subGenerics supGenerics
            if ok then isSubTypeF fuel st subTarget supTarget else (false, st)
        | _ => (false, st)
    | some (.genericDef xt _) =>
      match xt with
      | none => resolveGenericArgumentF fuel st 0 sub sup
      | some bound =>
        let (b, st) := isSubTypeF fuel st sub bound
        if b then resolveGenericArgumentF fuel st 0 sub sup else (false, st)
    | some (.union l r) =>
      let (b, st) := isSubTypeF fuel st sub l
      if b then (true, st) else isSubTypeF fuel st sub r
    | some (.interface _ supFields supMethods _) =>
      match heapGet st.heap sub with
      | some (.simple _ subFields subMethods _) =>
        let (ok, st) := structuralPairsF fuel st subFields supFields
        if ok then structuralPairsF fuel st subMethods supMethods else (false, st)
      | some (.interface _ subFields subMethods _) =>
        let (ok, st) := structuralPairsF fuel st subFields supFields
        if ok then structuralPairsF fuel st subMethods supMethods else (false, st)
      | _ => (false, st)
    | _ => (false, st)
termination_by structural fuel _ _ _ => fuel

/-- `isSubType` on nullable descriptor slots.  Two null pointers satisfy the
identity test (`subclass == superclass`); one null against one non-null
dereferences null in C — modelled `false`, never reached by the claims. -/
def isSubTypeOptF : Nat → CheckState → Option TypeId → Option TypeId → Bool × CheckState
  | _, st, none, none => (true, st)
  | Nat.succ fuel, st, some a, some b => isSubTypeF fuel st a b
  | _, st, _, _ => (false, st)
termination_by structural fuel _ _ _ => fuel

/-- The covariant parameter loop of the Functor-on-the-right case
(`types.c:349`): each subclass argument must be a subtype of the
corresponding superclass argument, threading the state left to right. -/
def isSubTypeArgsF : Nat → CheckState → List (Option TypeId) → List (Option TypeId) →
    Bool × CheckState
  | _, st, [], _ => (true, st)
  | _, st, _, [] => (true, st)
  | 0, st, _ :: _, _ :: _ => (false, st)
  | Nat.succ fuel, st, a :: as_, b :: bs =>
    let (ok, st) := isSubTypeOptF fuel st a b
    if ok then isSubTypeArgsF fuel st as_ bs else (false, st)
termination_by structural fuel _ _ _ => fuel

/-- The element-wise loop of the GenericApplication-on-the-right case
(`types.c:388`). -/
def isSubTypePairsF : Nat → CheckState → List TypeId → List TypeId → Bool × CheckState
  | _, st, [], _ => (true, st)
  | _, st, _ :: _, [] => (true, st)
  | 0, st, _ :: _, _ :: _ => (false, st)
  | Nat.succ fuel, st, a :: as_, b :: bs =>
    let (ok, st) := isSubTypeF fuel st a b
    if ok then isSubTypePairsF fuel st as_ bs else (false, st)
termination_by structural fuel _ _ _ => fuel

/-- The structural loops of the Interface-on-the-right case
(`types.c:415`, `types.c:429`): every member of the superclass table must be
present in the subclass table with a subtype.  (The C iterates hash-table
entries; the claims below never depend on the order.) -/
def structuralPairsF : Nat → CheckState → List (String × Option TypeId) →
    List (String × Option TypeId) → Bool × CheckState
  | _, st, _, [] => (true, st)
  | 0, st, _, _ :: _ => (false, st)
  | Nat.succ fuel, st, subTable, (key, supMember) :: rest =>
    match tableGet key subTable with
    | none => (false, st)
    | some subMember =>
      let (ok, st) := isSubTypeOptF fuel st subMember supMember
      if ok then structuralPairsF fuel st subTable rest else (false, st)
termination_by structural fuel _ _ _ => fuel

/-- `resolveGenericArgument(typeEnvironment, subclass, superclass)`
(`src/types.c:257`), walking the stack from frame `i` outward: an open
(`nil`) entry for `superclass` is bound to `subclass`; an existing entry must
admit `subclass` as a subtype. -/
def resolveGenericArgumentF : Nat → CheckState → Nat → TypeId → TypeId →
    Bool × CheckState
  | 0, st, _, _, _ => (false, st)
  | Nat.succ fuel, st, i, sub, sup =>
    match st.envs.get? i with
    | none => (false, st)
    | some f =>
      match resTableGet sup f.genericResolutions with
      | some none =>
        (true, { st with envs := setResolutionAt st.envs i sup (some sub) })
      | some (some res) => isSubTypeF fuel st sub res
      | none => resolveGenericArgumentF fuel st (i + 1) sub sup
termination_by structural fuel _ _ _ _ => fuel

end

end Saffron

namespace Saffron

/-- The checker state right after `makeTypes()` with one (top-level) scope. -/
def baseState : CheckState :=
  { heap := baseHeap, envs := [emptyFrame], panicMode := false, hadError := false,
    diags := [], builtinModules := [], modules := [], currentClassType := none,
    currentAssignmentType := none, currentFuncType := none }


end Saffron
namespace Saffron

/-! ## Tokens and AST nodes (`scanner.h` / `ast.h` as used by the sources) -/

/-- The token kinds the parser consults (`TokenType`). -/
inductive TokenType where
  | leftParen | rightParen | leftBrace | rightBrace | leftBracket | rightBracket
  | pipe | comma | dot | minus | plus | modulo | semicolon | slash | star
  | bang | bangEqual | equal | equalEqual | greater | greaterEqual | less | lessEqual
  | identifier | atomTok | stringTok | numberTok
  | andTok | classTok | elseTok | falseTok | forTok | funTok | ifTok | nilTok
  | orTok | returnTok | superTok | thisTok | trueTok | varTok | whileTok | yieldTok
  | awaitTok | colon | arrow | extendsTok | asTok | importTok | interfaceTok
  | typeTok | bitwiseOr | errorTok | eofTok
  deriving DecidableEq, Repr

/-- A scanner token: kind, lexeme view, line.  The scanner is an external
collaborator; `nval` carries the numeric value `strtod` would read for a
NUMBER token (and is 0 otherwise). -/
structure Token where
  type : TokenType
  lexeme : String
  line : Nat
  nval : Rat
  deriving Repr, DecidableEq

/-- `FunctionType` of the compiler (`TYPE_FUNCTION`, `TYPE_INITIALIZER`,
`TYPE_METHOD`, `TYPE_SCRIPT`). -/
inductive FunctionType where
  | typeFunction | typeInitializer | typeMethod | typeScript
  deriving DecidableEq, Repr

/-- `AssignmentType` (`TYPE_VARIABLE` assumed first, as
`interfaceDeclaration` passes a literal `false` for it). -/
inductive AssignmentType where
  | typeVariable | typeField
  deriving DecidableEq, Repr

/-- The AST node variants the parser constructs (`NodeType` plus each node
struct).  Children that C stores as possibly-null pointers are `Option`s;
parameters (`struct Positional`) are themselves nodes, as in C.
`NODE_GROUPING`, `NODE_LOGICAL`, `NODE_THIS`, `NODE_BREAK`, `NODE_ENUM` and
`NODE_ENUMITEM` exist in the node enumeration but are never built by this
parser (`grouping` returns the inner expression, `and_`/`or_` build Binary,
`this_` builds a Variable) and so are omitted. -/
inductive Node where
  | lit (value : RVal)
  | variableN (name : Token)
  | assign (name : Token) (value : Option Node)
  | unary (op : Token) (right : Option Node)
  | binary (op : Token) (left right : Option Node)
  | call (paren : Token) (callee : Option Node) (arguments : List Node)
  | getItem (object index : Option Node)
  | get (object : Option Node) (name : Token)
  | set (object : Option Node) (name : Token) (value : Option Node)
  | superN (keyword method : Token)
  | yieldN (expression : Option Node)
  | listN (bracket : Token) (items : List Node)
  | mapN (brace : Token) (keys values : List Node)
  | lambda (params : List Node) (body : List Node) (sig : Option Node)
  | positional (name : Token) (ptype : Option Node)
  | exprStmt (lineno : Nat) (expression : Option Node)
  | varStmt (name : Token) (initializer : Option Node) (typeAnn : Option Node)
      (assignmentType : AssignmentType)
  | block (statements : List Node)
  | funcStmt (name : Token) (params : List Node) (body : List Node)
      (functionType : FunctionType) (returnType : Option Node) (generics : List Node)
  | classStmt (name : Token) (superclass : Option Node) (body : List Node)
      (generics : List Node)
  | interfaceStmt (name : Token) (superT : Option Node) (body : List Node)
      (generics : List Node)
  | methodSig (name : Token) (params : List Node) (functionType : FunctionType)
      (returnType : Option Node) (generics : List Node)
  | ifStmt (condition thenBranch elseBranch : Option Node)
  | whileStmt (condition : Option Node) (body : Option Node)
  | forStmt (initializer condition increment body : Option Node)
  | returnStmt (keyword : Token) (value : Option Node)
  | importStmt (expression : Option Node) (name : Token)
  | simpleTN (name : Token) (generics : List Node)
  | functorTN (arguments : List (Option Node)) (returnType : Option Node)
      (generics : List Node)
  | unionTN (left right : Option Node)
  | typeDeclTN (name : Token) (target : Option Node) (generics : List Node)

/-! ## The type checker (`evaluateNode`, `src/types.c:548`) -/

/-- `getTypeOf(value)`: the singleton for a literal's runtime kind; object
kinds other than strings and atoms fall through to `NULL`. -/
def getTypeOf : RVal → Option TypeId
  | .vbool _ => some boolId
  | .vnil => some nilId
  | .num _ => some numberId
  | .vstr _ => some stringId
  | .vatom _ => some atomId
  | .vlist _ => none

/-- `resolveLocal`: walk the scope stack; a binding whose stored value is the
null pointer is returned as such (the caller's `if (arg)` then treats it as
absent), so it flattens to `none` here and stops the walk. -/
def resolveLocal : List TypeFrame → String → Option TypeId
  | [], _ => none
  | f :: rest, nm =>
    match tableGet nm f.locals with
    | some v => v
    | none => resolveLocal rest nm

/-- `resolveTypeDef`. -/
def resolveTypeDef : List TypeFrame → String → Option TypeId
  | [], _ => none
  | f :: rest, nm =>
    match tableGet nm f.typeDefs with
    | some v => some v
    | none => resolveTypeDef rest nm

/-- `getVariableType(name)` (`src/types.c:231`): locals, then the builtin
module index, else the *"Undefined variable"* diagnostic. -/
def getVariableTypeF (name : Token) (st : CheckState) : Option TypeId × CheckState :=
  match resolveLocal st.envs name.lexeme with
  | some t => (some t, st)
  | none =>
    match tableGet name.lexeme st.builtinModules with
    | some t => (some t, st)
    | none => (none, errorAtT "Undefined variable" st)

/-- `getTypeDef(name)` (`src/types.c:244`). -/
def getTypeDefF (name : Token) (st : CheckState) : Option TypeId × CheckState :=
  match resolveTypeDef st.envs name.lexeme with
  | some t => (some t, st)
  | none => (none, errorAtT "Undefined type" st)

/-- Allocate a fresh descriptor (`ALLOCATE_OBJ`); its id is the old heap
length. -/
def allocType (d : TypeDesc) (st : CheckState) : TypeId × CheckState :=
  (st.heap.length, { st with heap := st.heap ++ [d] })

/-- Overwrite a descriptor in place (C mutates the object). -/
def heapSet (i : TypeId) (d : TypeDesc) (st : CheckState) : CheckState :=
  { st with heap := st.heap.set i d }

/-- `initTypeEnvironment`: push a fresh scope. -/
def pushEnv (st : CheckState) : CheckState :=
  { st with envs := emptyFrame :: st.envs }

/-- `currentEnv = currentEnv->enclosing`: pop the innermost scope. -/
def popEnv (st : CheckState) : CheckState :=
  { st with envs := st.envs.tail }

/-- `tableSet(&currentEnv->locals, name, v)` (no-op on an empty stack, which
in C would be a null dereference, unreachable from `evaluateTree`). -/
def defineLocalCur (nm : String) (v : Option TypeId) (st : CheckState) : CheckState :=
  match st.envs with
  | [] => st
  | f :: rest => { st with envs := { f with locals := tableSet nm v f.locals } :: rest }

/-- `tableSet(&currentEnv->typeDefs, name, v)`. -/
def defineTypeDefCur (nm : String) (v : TypeId) (st : CheckState) : CheckState :=
  match st.envs with
  | [] => st
  | f :: rest => { st with envs := { f with typeDefs := tableSet nm v f.typeDefs } :: rest }

/-- Seed `argEnv.genericResolutions` with nil entries for the callee's
generic parameters (`src/types.c:629`). -/
def seedResolutions (gs : List TypeId) (st : CheckState) : CheckState :=
  match st.envs with
  | [] => st
  | f :: rest =>
    { st with envs :=
        { f with genericResolutions :=
            gs.foldl (fun acc g => resTableSet g none acc) f.genericResolutions } :: rest }

/-- Append one argument slot to a functor descriptor
(`writeValueArray(&type->arguments, …)`; a `none` slot is `NIL_VAL`). -/
def functorAppendArg (fid : TypeId) (a : Option TypeId) (st : CheckState) : CheckState :=
  match heapGet st.heap fid with
  | some (.functor args gs r) => heapSet fid (.functor (args ++ [a]) gs r) st
  | _ => st

/-- `type->returnType = r` on a functor descriptor. -/
def functorSetRet (fid : TypeId) (r : Option TypeId) (st : CheckState) : CheckState :=
  match heapGet st.heap fid with
  | some (.functor args gs _) => heapSet fid (.functor args gs r) st
  | _ => st

/-- `type->genericArgs = gs` on a functor descriptor. -/
def functorSetGenerics (fid : TypeId) (gs : List TypeId) (st : CheckState) : CheckState :=
  match heapGet st.heap fid with
  | some (.functor args _ r) => heapSet fid (.functor args gs r) st
  | _ => st

/-- Read a functor's current return type slot. -/
def functorGetRet (fid : TypeId) (st : CheckState) : Option TypeId :=
  match heapGet st.heap fid with
  | some (.functor _ _ r) => r
  | _ => none

/-- Read a functor's argument slots. -/
def functorGetArgs (fid : TypeId) (st : CheckState) : List (Option TypeId) :=
  match heapGet st.heap fid with
  | some (.functor args _ _) => args
  | _ => []

/-- Read a functor's generic parameter list. -/
def functorGetGenerics (fid : TypeId) (st : CheckState) : List TypeId :=
  match heapGet st.heap fid with
  | some (.functor _ gs _) => gs
  | _ => []

/-- The name token a node carries, for the places where the checker reads
`->name` through a cast (e.g. an interface's `superType` node). -/
def nodeName : Node → Option Token
  | .variableN name => some name
  | .varStmt name _ _ _ => some name
  | .simpleTN name _ => some name
  | _ => none

end Saffron

namespace Saffron

/-- `copyTable(from, to)`: insert every entry of the source table into the
destination (overwriting same-named entries). -/
def copyTableO (src dst : List (String × Option TypeId)) :
    List (String × Option TypeId) :=
  src.foldl (fun acc p => tableSet p.1 p.2 acc) dst

/-- `tableSet(&classType->methods, name, t)`. -/
def classAddMethod (cid : TypeId) (nm : String) (t : Option TypeId)
    (st : CheckState) : CheckState :=
  match heapGet st.heap cid with
  | some (.simple s f m g) => heapSet cid (.simple s f (tableSet nm t m) g) st
  | _ => st

/-- `tableSet(&classType->fields, name, t)`. -/
def classAddField (cid : TypeId) (nm : String) (t : Option TypeId)
    (st : CheckState) : CheckState :=
  match heapGet st.heap cid with
  | some (.simple s f m g) => heapSet cid (.simple s (tableSet nm t f) m g) st
  | _ => st

/-- `tableSet(&interfaceType->methods, name, t)`. -/
def interfaceAddMethod (iid : TypeId) (nm : String) (t : Option TypeId)
    (st : CheckState) : CheckState :=
  match heapGet st.heap iid with
  | some (.interface s f m g) => heapSet iid (.interface s f (tableSet nm t m) g) st
  | _ => st

/-- `tableSet(&interfaceType->fields, name, t)`. -/
def interfaceAddField (iid : TypeId) (nm : String) (t : Option TypeId)
    (st : CheckState) : CheckState :=
  match heapGet st.heap iid with
  | some (.interface s f m g) => heapSet iid (.interface s (tableSet nm t f) m g) st
  | _ => st

/-- `classFunctionType->arguments = type->arguments` (the constructor's
signature is exported from the `init` method). -/
def copyFunctorArgs (src dst : TypeId) (st : CheckState) : CheckState :=
  match heapGet st.heap src, heapGet st.heap dst with
  | some (.functor args _ _), some (.functor _ gs r) =>
    heapSet dst (.functor args gs r) st
  | _, _ => st

end Saffron

namespace Saffron

mutual

/-- `evaluateNode(node)` (`src/types.c:548`): the post-order checker walk,
returning the node's resolved type (null = `none`) and the threaded state.
Each recursive step consumes one unit of fuel; concrete programs below run
with ample fuel.  Places where the C would dereference a null pointer or
read uninitialized memory are noted case by case and modelled as `none`
results; no claim below exercises them. -/
def evalNode : Nat → CheckState → Option Node → Option TypeId × CheckState
  | _, st, none => (none, st)
  | 0, st, some _ => (none, st)
  | Nat.succ fuel, st, some node =>
    match node with
    | .binary _ left right =>
      let (_, st) := evalNode fuel st right
      evalNode fuel st left
    | .lit v => (getTypeOf v, st)
    | .unary op right =>
      let (r, st) := evalNode fuel st right
      match op.type with
      | .bang => (getTypeOf (.vbool true), st)
      | .minus => (r, st)
      | _ => (none, st)
    | .variableN name => getVariableTypeF name st
    | .assign name value =>
      let (valueType, st) := evalNode fuel st value
      let (namedType, st) := getVariableTypeF name st
      let (ok, st) := isSubTypeOptF fuel st valueType namedType
      let st := if ok then st else errorAtT "Type mismatch" st
      (match namedType with | some t => some t | none => valueType, st)
    | .call paren callee args =>
      let (calleeType, st) := evalNode fuel st callee
      match calleeType with
      | none =>
        -- a null callee type is dereferenced in C (crash); modelled as the
        -- not-callable diagnostic
        (none, errorAtT "Type is not callable" st)
      | some cid =>
        match heapGet st.heap cid with
        | some (.functor fArgs fGens _) =>
          -- an argument-count mismatch is tolerated (varargs TODO in C)
          let st := pushEnv st
          let st := seedResolutions fGens st
          let (ok, st) := evalCallArgs fuel st paren args fArgs
          if ok then
            let returnType := functorGetRet cid st
            (returnType, popEnv st)
          else
            -- the C `return NULL` on a mismatched argument leaves the
            -- argument scope pushed
            (none, st)
        | _ => (none, errorAtT "Type is not callable" st)
    | .getItem object index =>
      let (ty, st) := evalNode fuel st object
      let (okL, st) := isSubTypeOptF fuel st ty (some listId)
      if okL then
        let (indexType, st) := evalNode fuel st index
        let (okN, st) := isSubTypeOptF fuel st indexType (some numberId)
        if !okN then (none, errorT "Index must be a number" st)
        else
          match ty with
          | some tid =>
            match heapGet st.heap tid with
            | some (.generic _ gens) =>
              if gens.length ≠ 0 then (gens.get? 0, st) else (some neverId, st)
            | _ =>
              -- the C reinterprets a non-generic descriptor here; the spec's
              -- unparameterized-container case: `Never`
              (some neverId, st)
          | none => (some neverId, st)
      else
        let (okM, st) := isSubTypeOptF fuel st ty (some mapId)
        if okM then
          match ty with
          | some tid =>
            let gens := match heapGet st.heap tid with
              | some (.generic _ g) => g
              | _ => []
            let (indexType, st) := evalNode fuel st index
            let (okK, st) := isSubTypeOptF fuel st indexType (gens.get? 0)
            if !okK then (none, errorT "Key type mismatch" st)
            else if gens.length ≠ 0 then (gens.get? 1, st) else (some neverId, st)
          | none => (none, st)
        else (none, errorT "Cannot get item on something other than a list or map" st)
    | .get object name =>
      let (objectType, st) := evalNode fuel st object
      match objectType with
      | none => (none, errorAtT "Attempting to get from invalid type." st)
      | some oid =>
        match heapGet st.heap oid with
        | some (.genericDef none _) =>
          (none, errorAtT "Attempting to get from invalid generic type." st)
        | some d =>
          let rootId : Option TypeId :=
            match d with
            | .simple _ _ _ _ => some oid
            | .interface _ _ _ _ => some oid
            | .generic target _ => some target
            | .genericDef xt _ => xt
            | _ => none
          match rootId with
          | none =>
            -- union/functor object: C reports the diagnostic, then uses the
            -- uninitialized root pointer (crash)
            (none, errorAtT "Attempting to get from invalid type." st)
          | some rid =>
            match heapGet st.heap rid with
            | some (.simple _ flds mtds _) =>
              (match tableGet name.lexeme mtds with
               | some v => (v, st)
               | none =>
                 match tableGet name.lexeme flds with
                 | some v => (v, st)
                 | none => (none, errorAtT "Invalid field" st))
            | some (.interface _ flds mtds _) =>
              (match tableGet name.lexeme mtds with
               | some v => (v, st)
               | none =>
                 match tableGet name.lexeme flds with
                 | some v => (v, st)
                 | none => (none, errorAtT "Invalid field" st))
            | _ => (none, errorAtT "Invalid field" st)
        | none => (none, errorAtT "Attempting to get from invalid type." st)
    | .set object name value =>
      let (valueType, st) := evalNode fuel st value
      let (objectType, st) := evalNode fuel st object
      match objectType with
      | none => (none, st)
      | some oid =>
        let rid := match heapGet st.heap oid with
          | some (.generic target _) => target
          | _ => oid
        match heapGet st.heap rid with
        | some (.simple _ flds mtds _) =>
          let (fieldType, st) :=
            match tableGet name.lexeme mtds with
            | some v => (v, st)
            | none =>
              match tableGet name.lexeme flds with
              | some v => (v, st)
              | none => (none, errorAtT "Invalid field" st)
          let (ok, st) := isSubTypeOptF fuel st valueType fieldType
          let st := if ok then st else errorT "Type mismatch in setter" st
          (fieldType, st)
        | some (.interface _ flds mtds _) =>
          let (fieldType, st) :=
            match tableGet name.lexeme mtds with
            | some v => (v, st)
            | none =>
              match tableGet name.lexeme flds with
              | some v => (v, st)
              | none => (none, errorAtT "Invalid field" st)
          let (ok, st) := isSubTypeOptF fuel st valueType fieldType
          let st := if ok then st else errorT "Type mismatch in setter" st
          (fieldType, st)
        | _ => (none, st)
    | .superN _ method =>
      match st.currentClassType with
      | none => (none, st)
      | some cid =>
        match heapGet st.heap cid with
        | some (.simple (some sid) _ _ _) =>
          match heapGet st.heap sid with
          | some (.simple _ flds mtds _) =>
            (match tableGet method.lexeme mtds with
             | some v => (v, st)
             | none =>
               match tableGet method.lexeme flds with
               | some v => (v, st)
               | none => (none, errorAtT "Invalid field" st))
          | _ => (none, st)
        | _ => (none, st)
    | .yieldN expression =>
      let (_, st) := evalNode fuel st expression
      (some anyId, st)
    | .lambda params body sig =>
      let st := pushEnv st
      -- the generics loop reads struct Lambda's `generics` field, which this
      -- parser never writes (uninitialized memory); modelled as empty
      let (fid, st) := allocType (.functor [] [] none) st
      let oldFT := st.currentFuncType
      let st := { st with currentFuncType := some fid }
      let (sigArgs, sigRet) :=
        match sig with
        | some (.functorTN sargs sret _) => (sargs, sret)
        | _ => ([], none)
      let st := evalLambdaParams fuel st fid params sigArgs
      let (ret, st) := evalNode fuel st sigRet
      let st := functorSetRet fid ret st
      let st := evalStmts fuel st body
      let st := if functorGetRet fid st = none then functorSetRet fid (some nilId) st
                else st
      let st := popEnv st
      let st := { st with currentFuncType := oldFT }
      (some fid, st)
    | .listN _ items =>
      match st.currentAssignmentType with
      | none =>
        let (gid, st) := allocType (.generic listId []) st
        if items.length > 0 then
          let st := if items.length > 1 then evalExprList fuel st items else st
          let (itemType, st) := evalNode fuel st (items.get? 0)
          match itemType with
          | some it => (some gid, heapSet gid (.generic listId [it]) st)
          | none => (some gid, st)
        else
          (some gid, heapSet gid (.generic listId [neverId]) st)
      | some cid =>
        match heapGet st.heap cid with
        | some (.generic ctar cgens) =>
          let (okT, st) := isSubTypeF fuel st listId ctar
          if !okT then (some cid, errorAtT "Type mismatch, incompatible type" st)
          else if cgens.length ≠ 1 then
            (some cid, errorAtT "Type mismatch, missing type annotation" st)
          else
            let itemType := cgens.get? 0
            let tmp := st.currentAssignmentType
            let st := { st with currentAssignmentType := itemType }
            let st := evalListItems fuel st items itemType
            let st := { st with currentAssignmentType := tmp }
            (some cid, st)
        | _ => (some cid, errorAtT "Type mismatch" st)
    | .mapN _ keys values =>
      match st.currentAssignmentType with
      | none =>
        -- `type->target = mapTypeDef` dereferences the null assignment
        -- type first: crash in C; the unannotated-map branch is dead code
        (none, st)
      | some cid =>
        let st := match heapGet st.heap cid with
          | some (.generic _ g) => heapSet cid (.generic mapId g) st
          | _ => st
        match heapGet st.heap cid with
        | some (.generic ctar cgens) =>
          let (okT, st) := isSubTypeF fuel st mapId ctar
          if !okT then (some cid, errorAtT "Type mismatch, incompatible type" st)
          else if cgens.length ≠ 2 then
            (some cid, errorAtT "Type mismatch, missing type annotation" st)
          else
            let keyType := cgens.get? 0
            let valueType := cgens.get? 1
            let tmp := st.currentAssignmentType
            let st := evalMapItems fuel st keys values keyType valueType
            let st := { st with currentAssignmentType := tmp }
            (some cid, st)
        | _ => (some cid, errorAtT "Type mismatch" st)
    | .exprStmt _ expression => evalNode fuel st expression
    | .varStmt name initializer typeAnn _ =>
      let (varType, st) := evalNode fuel st typeAnn
      let (varType, st) :=
        match initializer with
        | some initNode =>
          let old := st.currentAssignmentType
          let st := { st with currentAssignmentType := varType }
          let (valType, st) := evalNode fuel st (some initNode)
          let (varType, st) :=
            match varType with
            | some vt =>
              let (ok, st) := isSubTypeOptF fuel st valType (some vt)
              if ok then (some vt, st)
              else
                -- the C repeats the isSubType call before the diagnostic
                let (_, st) := isSubTypeOptF fuel st valType (some vt)
                (some vt, errorAtT "Type mismatch in var" st)
            | none => (valType, st)
          let st := { st with currentAssignmentType := old }
          (varType, st)
        | none => (varType, st)
      let st := defineLocalCur name.lexeme varType st
      (none, st)
    | .block statements =>
      -- evaluateBlock's `i == statements->count` guard never fires inside
      -- the loop; the function falls off the end (undefined return value),
      -- modelled as `none`
      (none, evalStmts fuel st statements)
    | .funcStmt name params body _ retTN generics =>
      let st := pushEnv st
      let (genericArgs, st) := evalGenerics fuel st generics
      let oldFT := st.currentFuncType
      let (fid, st) := allocType (.functor [] [] none) st
      let st := functorSetGenerics fid genericArgs st
      let st := { st with currentFuncType := some fid }
      let st := evalFuncParams fuel st fid params
      let (ret, st) := evalNode fuel st retTN
      let st := functorSetRet fid ret st
      let st := evalStmts fuel st body
      let st := if functorGetRet fid st = none then functorSetRet fid (some nilId) st
                else st
      let st := popEnv st
      let st := defineLocalCur name.lexeme (some fid) st
      let st := { st with currentFuncType := oldFT }
      (some fid, st)
    | .classStmt name superclass body generics =>
      let (classId, st) := allocType (.simple none [] [] []) st
      let oldClass := st.currentClassType
      let st := { st with currentClassType := some classId }
      let (cfId, st) := allocType (.functor [] [] none) st
      let st := pushEnv st
      let (genericArgs, st) := evalGenerics fuel st generics
      let st := match heapGet st.heap classId with
        | some (.simple _ f m _) => heapSet classId (.simple none f m genericArgs) st
        | _ => st
      let st :=
        match superclass with
        | some sup =>
          match nodeName sup with
          | some supName =>
            let (superT, st) := getTypeDefF supName st
            match superT with
            | some sid =>
              match heapGet st.heap sid, heapGet st.heap classId with
              | some (.simple _ sf sm _), some (.simple _ cf cm cg) =>
                heapSet classId
                  (.simple (some sid) (copyTableO sf cf) (copyTableO sm cm) cg) st
              | _, _ => st
            | none => st
          | none => st
        | none => st
      let st := evalClassBody fuel st classId cfId body
      let st := functorSetRet cfId (some classId) st
      let st := popEnv st
      let st := defineLocalCur name.lexeme (some cfId) st
      let st := defineTypeDefCur name.lexeme classId st
      let st := { st with currentClassType := oldClass }
      (some classId, st)
    | .interfaceStmt name superT body generics =>
      let (iid, st) := allocType (.interface none [] [] []) st
      let st := defineTypeDefCur name.lexeme iid st
      let (abortQ, st) :=
        match superT with
        | some supNode =>
          match nodeName supNode with
          | some supName =>
            let (sup, st) := getTypeDefF supName st
            match sup with
            | some sid =>
              match heapGet st.heap sid with
              | some (.interface _ sf sm _) =>
                let st := match heapGet st.heap iid with
                  | some (.interface _ f m g) =>
                    heapSet iid
                      (.interface (some sid) (copyTableO sf f) (copyTableO sm m) g) st
                  | _ => st
                (false, st)
              | _ =>
                (true, errorAtT "Parent type for interface may only be an interface." st)
            | none => (false, st)
          | none => (false, st)
        | none => (false, st)
      if abortQ then (none, st)
      else
        let st := pushEnv st
        let (genericArgs, st) := evalGenerics fuel st generics
        let st := match heapGet st.heap iid with
          | some (.interface s f m _) => heapSet iid (.interface s f m genericArgs) st
          | _ => st
        let st := evalInterfaceBody fuel st iid body
        let st := popEnv st
        (none, st)
    | .ifStmt condition thenBranch elseBranch =>
      let (_, st) := evalNode fuel st condition
      let (result, st) := evalNode fuel st thenBranch
      let (_, st) := evalNode fuel st elseBranch
      (result, st)
    | .whileStmt condition body =>
      let (_, st) := evalNode fuel st condition
      let (_, st) := evalNode fuel st body
      (none, st)
    | .forStmt initializer condition increment body =>
      let (_, st) := evalNode fuel st initializer
      let (_, st) := evalNode fuel st condition
      let (_, st) := evalNode fuel st increment
      let (_, st) := evalNode fuel st body
      (none, st)
    | .returnStmt _ value =>
      let (v, st) := evalNode fuel st value
      match st.currentFuncType with
      | none => (v, st)
      | some fid =>
        match functorGetRet fid st with
        | some rt =>
          let (ok, st) := isSubTypeOptF fuel st v (some rt)
          let st := if ok then st else errorAtT "Return type mismatch" st
          (v, st)
        | none => (v, functorSetRet fid v st)
    | .importStmt expression name =>
      -- `parseFile` consults the module cache; a miss reads the file from
      -- the host filesystem (external), parses and checks it — outside this
      -- model.  Only the cache path is modelled; no claim exercises imports.
      let path := match expression with
        | some (.lit (.vstr s)) => s
        | _ => ""
      let t := tableGet path st.modules
      let st := defineLocalCur name.lexeme t st
      (none, st)
    | .methodSig _ _ _ _ _ => (none, st)
    | .positional _ _ => (none, st)
    | .simpleTN name generics =>
      let (t, st) := getTypeDefF name st
      if generics.length > 0 then
        match t with
        | some tid =>
          let (gid, st) := allocType (.generic tid []) st
          let (args, st) := evalTypeArgs fuel st generics
          (some gid, heapSet gid (.generic tid args) st)
        | none => (none, st)
      else (t, st)
    | .functorTN arguments returnType generics =>
      let (fid, st) := allocType (.functor [] [] none) st
      let st := pushEnv st
      let st := evalFunctorGenerics fuel st fid generics
      let st := evalFunctorArgs fuel st fid arguments
      let (r, st) := evalNode fuel st returnType
      let st := functorSetRet fid r st
      let st := popEnv st
      (some fid, st)
    | .unionTN left right =>
      let (uid, st) := allocType (.union numberId numberId) st
      let (l, st) := evalNode fuel st left
      let (r, st) := evalNode fuel st right
      match l, r with
      | some li, some ri => (some uid, heapSet uid (.union li ri) st)
      | _, _ => (some uid, st)
    | .typeDeclTN name target generics =>
      let st := pushEnv st
      let (_, st) := evalGenerics fuel st generics
      let (result, st) := evalNode fuel st target
      let st := popEnv st
      let st := match result with
        | some rid => defineTypeDefCur name.lexeme rid st
        | none => st
      (none, st)
termination_by structural fuel _ _ => fuel

/-- `evaluateTypes(statements)`. -/
def evalStmts : Nat → CheckState → List Node → CheckState
  | _, st, [] => st
  | 0, st, _ :: _ => st
  | Nat.succ fuel, st, s :: rest =>
    let (_, st) := evalNode fuel st (some s)
    evalStmts fuel st rest
termination_by structural fuel _ _ => fuel

/-- `evaluateExprTypes(exprs)`. -/
def evalExprList : Nat → CheckState → List Node → CheckState
  | _, st, [] => st
  | 0, st, _ :: _ => st
  | Nat.succ fuel, st, e :: rest =>
    let (_, st) := evalNode fuel st (some e)
    evalExprList fuel st rest
termination_by structural fuel _ _ => fuel

/-- The argument loop of the Call case (`src/types.c:633`): each argument's
type must be a subtype of the corresponding parameter; on failure the C
repeats the check, reports *"Type mismatch"* and returns null.  Reading
past the parameter array (arity mismatch) is undefined in C; modelled as a
null parameter. -/
def evalCallArgs : Nat → CheckState → Token → List Node → List (Option TypeId) →
    Bool × CheckState
  | _, st, _, [], _ => (true, st)
  | 0, st, _, _ :: _, _ => (false, st)
  | Nat.succ fuel, st, paren, a :: rest, params =>
    let (argType, st) := evalNode fuel st (some a)
    let p := params.getD 0 none
    let (ok, st) := isSubTypeOptF fuel st argType p
    if ok then evalCallArgs fuel st paren rest (params.drop 1)
    else
      let (_, st) := isSubTypeOptF fuel st argType p
      (false, errorAtT "Type mismatch" st)
termination_by structural fuel _ _ _ _ => fuel

/-- The generic-parameter loop shared by Function/Class/Interface/
TypeDeclaration (`src/types.c:973` etc.): evaluate the optional `extends`
bound, allocate a GenericTypeDefinition, bind it in the fresh scope's
`typeDefs`, and collect it. -/
def evalGenerics : Nat → CheckState → List Node → List TypeId × CheckState
  | _, st, [] => ([], st)
  | 0, st, _ :: _ => ([], st)
  | Nat.succ fuel, st, g :: rest =>
    match g with
    | .typeDeclTN nm target _ =>
      let (extendType, st) := evalNode fuel st target
      let (aid, st) := allocType (.genericDef extendType nm.lexeme) st
      let st := defineTypeDefCur nm.lexeme aid st
      let (ids, st) := evalGenerics fuel st rest
      (aid :: ids, st)
    | _ => evalGenerics fuel st rest
termination_by structural fuel _ _ => fuel

/-- The parameter loop of the Function case (`src/types.c:994`): a missing
annotation defaults to `Any`; the parameter is recorded in the functor's
argument list and bound in the function's own scope. -/
def evalFuncParams : Nat → CheckState → TypeId → List Node → CheckState
  | _, st, _, [] => st
  | 0, st, _, _ :: _ => st
  | Nat.succ fuel, st, fid, p :: rest =>
    match p with
    | .positional nm ptype =>
      let (argType, st) :=
        match ptype with
        | some tn => evalNode fuel st (some tn)
        | none => (some anyId, st)
      let st := functorAppendArg fid argType st
      let st := defineLocalCur nm.lexeme argType st
      evalFuncParams fuel st fid rest
    | _ => evalFuncParams fuel st fid rest
termination_by structural fuel _ _ _ => fuel

/-- The parameter loop of the Lambda case (`src/types.c:800`): the type
nodes come from the signature Functor; an annotated parameter is evaluated,
recorded and bound, while a missing annotation records `NIL_VAL` and binds
nothing. -/
def evalLambdaParams : Nat → CheckState → TypeId → List Node → List (Option Node) →
    CheckState
  | _, st, _, [], _ => st
  | 0, st, _, _ :: _, _ => st
  | Nat.succ fuel, st, fid, p :: rest, sigArgs =>
    match sigArgs.getD 0 none with
    | some typeNode =>
      let (argType, st) := evalNode fuel st (some typeNode)
      let st := functorAppendArg fid argType st
      let st := match p with
        | .positional nm _ => defineLocalCur nm.lexeme argType st
        | _ => st
      evalLambdaParams fuel st fid rest (sigArgs.drop 1)
    | none =>
      let st := functorAppendArg fid none st
      evalLambdaParams fuel st fid rest (sigArgs.drop 1)
termination_by structural fuel _ _ _ _ => fuel

/-- The item loop of an annotated list literal (`src/types.c:862`). -/
def evalListItems : Nat → CheckState → List Node → Option TypeId → CheckState
  | _, st, [], _ => st
  | 0, st, _ :: _, _ => st
  | Nat.succ fuel, st, e :: rest, itemType =>
    let (evalType, st) := evalNode fuel st (some e)
    let (ok, st) := isSubTypeOptF fuel st evalType itemType
    let st := if ok then st else errorAtT "Type mismatch, incompatible types" st
    evalListItems fuel st rest itemType
termination_by structural fuel _ _ _ => fuel

/-- The key/value loop of an annotated map literal (`src/types.c:913`). -/
def evalMapItems : Nat → CheckState → List Node → List Node → Option TypeId →
    Option TypeId → CheckState
  | _, st, [], _, _, _ => st
  | 0, st, _ :: _, _, _, _ => st
  | Nat.succ fuel, st, k :: krest, vals, keyType, valueType =>
    let st := { st with currentAssignmentType := keyType }
    let (evalK, st) := evalNode fuel st (some k)
    let (okK, st) := isSubTypeOptF fuel st evalK keyType
    let st := if okK then st
              else errorAtT "Map key type mismatch, incompatible types" st
    let st := { st with currentAssignmentType := valueType }
    let (evalV, st) := evalNode fuel st (vals.get? 0)
    let (okV, st) := isSubTypeOptF fuel st evalV valueType
    let st := if okV then st
              else errorAtT "Map value type mismatch, incompatible types" st
    evalMapItems fuel st krest (vals.drop 1) keyType valueType
termination_by structural fuel _ _ _ _ _ => fuel

/-- The class-body loop (`src/types.c:1072`): methods get `this` bound, an
Any default for unannotated parameters, their functor entered into
`methods` before the body is checked; the `init` method's arguments are
copied to the exported constructor functor; `var` members are checked
(`isSubType(declared, initializer)`, in that order) and entered into
`fields`. -/
def evalClassBody : Nat → CheckState → TypeId → TypeId → List Node → CheckState
  | _, st, _, _, [] => st
  | 0, st, _, _, _ :: _ => st
  | Nat.succ fuel, st, classId, cfId, stmt :: rest =>
    match stmt with
    | .funcStmt mname mparams mbody mftype mretTN _ =>
      let st := pushEnv st
      let st := defineLocalCur "this" (some classId) st
      let (mid, st) := allocType (.functor [] [] none) st
      let oldFT := st.currentFuncType
      let st := { st with currentFuncType := some mid }
      let st := evalFuncParams fuel st mid mparams
      let st := classAddMethod classId mname.lexeme (some mid) st
      let st :=
        if mftype ≠ .typeInitializer then
          let (r, st) := evalNode fuel st mretTN
          functorSetRet mid r st
        else
          let st := functorSetRet mid (some classId) st
          copyFunctorArgs mid cfId st
      let st := evalStmts fuel st mbody
      let st := if functorGetRet mid st = none then functorSetRet mid (some nilId) st
                else st
      let st := popEnv st
      let st := { st with currentFuncType := oldFT }
      evalClassBody fuel st classId cfId rest
    | .varStmt vname vinit vtype _ =>
      let (t, st) := evalNode fuel st vtype
      let st :=
        match vinit with
        | some ini =>
          let (ivt, st) := evalNode fuel st (some ini)
          let (ok, st) := isSubTypeOptF fuel st t ivt
          if ok then st else errorAtT "Type mismatch." st
        | none => st
      let st := classAddField classId vname.lexeme t st
      evalClassBody fuel st classId cfId rest
    | _ => evalClassBody fuel st classId cfId rest
termination_by structural fuel _ _ _ _ => fuel

/-- The parameter loop of a MethodSig inside an interface
(`src/types.c:1336`): like a function's, but nothing is bound in scope. -/
def evalSigParams : Nat → CheckState → TypeId → List Node → CheckState
  | _, st, _, [] => st
  | 0, st, _, _ :: _ => st
  | Nat.succ fuel, st, fid, p :: rest =>
    match p with
    | .positional _ ptype =>
      let (argType, st) :=
        match ptype with
        | some tn => evalNode fuel st (some tn)
        | none => (some anyId, st)
      let st := functorAppendArg fid argType st
      evalSigParams fuel st fid rest
    | _ => evalSigParams fuel st fid rest
termination_by structural fuel _ _ _ => fuel

/-- The interface-body loop (`src/types.c:1331`). -/
def evalInterfaceBody : Nat → CheckState → TypeId → List Node → CheckState
  | _, st, _, [] => st
  | 0, st, _, _ :: _ => st
  | Nat.succ fuel, st, iid, stmt :: rest =>
    match stmt with
    | .methodSig mname mparams mftype mretTN _ =>
      let (mid, st) := allocType (.functor [] [] none) st
      let st := evalSigParams fuel st mid mparams
      let st := interfaceAddMethod iid mname.lexeme (some mid) st
      let st :=
        if mftype ≠ .typeInitializer then
          let (r, st) := evalNode fuel st mretTN
          functorSetRet mid r st
        else functorSetRet mid (some iid) st
      let st := if functorGetRet mid st = none then functorSetRet mid (some nilId) st
                else st
      evalInterfaceBody fuel st iid rest
    | .varStmt vname _ vtype _ =>
      let (t, st) := evalNode fuel st vtype
      let st := interfaceAddField iid vname.lexeme t st
      evalInterfaceBody fuel st iid rest
    | _ => evalInterfaceBody fuel st iid rest
termination_by structural fuel _ _ _ => fuel

/-- The generic-parameter loop of a Functor type annotation
(`src/types.c:1227`): no `extends` evaluation, slots recorded in the
functor's own `genericArgs`. -/
def evalFunctorGenerics : Nat → CheckState → TypeId → List Node → CheckState
  | _, st, _, [] => st
  | 0, st, _, _ :: _ => st
  | Nat.succ fuel, st, fid, g :: rest =>
    match g with
    | .typeDeclTN nm _ _ =>
      let (aid, st) := allocType (.genericDef none nm.lexeme) st
      let st := match heapGet st.heap fid with
        | some (.functor args gs r) => heapSet fid (.functor args (gs ++ [aid]) r) st
        | _ => st
      let st := defineTypeDefCur nm.lexeme aid st
      evalFunctorGenerics fuel st fid rest
    | _ => evalFunctorGenerics fuel st fid rest
termination_by structural fuel _ _ _ => fuel

/-- The argument loop of a Functor type annotation (`src/types.c:1240`): a
null type node records `NIL_VAL`. -/
def evalFunctorArgs : Nat → CheckState → TypeId → List (Option Node) → CheckState
  | _, st, _, [] => st
  | 0, st, _, _ :: _ => st
  | Nat.succ fuel, st, fid, tn :: rest =>
    match tn with
    | some typeNode =>
      let (a, st) := evalNode fuel st (some typeNode)
      let st := functorAppendArg fid a st
      evalFunctorArgs fuel st fid rest
    | none =>
      let st := functorAppendArg fid none st
      evalFunctorArgs fuel st fid rest
termination_by structural fuel _ _ _ => fuel

/-- The generic-argument loop of a Simple type annotation with arguments
(`src/types.c:1265`); a null result would be stored as a null entry in C
(crashing on use) and is dropped here — no claim reaches it. -/
def evalTypeArgs : Nat → CheckState → List Node → List TypeId × CheckState
  | _, st, [] => ([], st)
  | 0, st, _ :: _ => ([], st)
  | Nat.succ fuel, st, g :: rest =>
    let (a, st) := evalNode fuel st (some g)
    let (args, st) := evalTypeArgs fuel st rest
    match a with
    | some aid => (aid :: args, st)
    | none => (args, st)
termination_by structural fuel _ _ => fuel

end

end Saffron

namespace Saffron

/-- A synthetic token of the given kind and lexeme. -/
def mkTok (ty : TokenType) (lx : String) : Token :=
  { type := ty, lexeme := lx, line := 1, nval := 0 }

/-- An identifier token. -/
def idTok (lx : String) : Token :=
  mkTok .identifier lx

/-- `initGlobalEnvironment` (`src/types.c:159`): the built-in typedefs.
`defineLocalAndTypeDef` additionally binds `List`/`Map` in `locals` to the
`init` member of their module type; those live in `src/libc/*.c` (outside
the sources under review) and their member tables are modelled empty, so the
local binds the null it would read from an absent entry. -/
def initGlobalEnvironmentF (st : CheckState) : CheckState :=
  let st := defineTypeDefCur "Number" numberId st
  let st := defineTypeDefCur "Nil" nilId st
  let st := defineTypeDefCur "Bool" boolId st
  let st := defineTypeDefCur "Atom" atomId st
  let st := defineTypeDefCur "String" stringId st
  let st := defineTypeDefCur "Never" neverId st
  let st := defineTypeDefCur "Any" anyId st
  let st := defineTypeDefCur "Task" taskId st
  let st := defineTypeDefCur "List" listId st
  let st := defineLocalCur "List" none st
  let st := defineTypeDefCur "Map" mapId st
  let st := defineLocalCur "Map" none st
  st

/-- `evaluateTree(statements)` (`src/types.c:504`): a fresh top-level scope
seeded with the global environment, then the statement walk. -/
def evaluateTreeF (fuel : Nat) (stmts : List Node) : CheckState :=
  evalStmts fuel (initGlobalEnvironmentF baseState) stmts

/-- The declaration `fun id<T>(x: T): T { return x; }`. -/
def idFunNode : Node :=
  .funcStmt (idTok "id")
    [.positional (idTok "x") (some (.simpleTN (idTok "T") []))]
    [.returnStmt (mkTok .returnTok "return") (some (.variableN (idTok "x")))]
    .typeFunction
    (some (.simpleTN (idTok "T") []))
    [.typeDeclTN (idTok "T") none []]

/-- The declaration `fun g(s: String): Nil { }`. -/
def gFunNode : Node :=
  .funcStmt (idTok "g")
    [.positional (idTok "s") (some (.simpleTN (idTok "String") []))]
    []
    .typeFunction
    (some (.simpleTN (idTok "Nil") []))
    []

/-- The call `id(3)`. -/
def idCallNode : Node :=
  .call (mkTok .rightParen ")") (some (.variableN (idTok "id"))) [.lit (.num 3)]

/-- The call `g(id(3))`: the generic call's result used where a `String`
parameter is required. -/
def gCallNode : Node :=
  .call (mkTok .rightParen ")") (some (.variableN (idTok "g"))) [idCallNode]

/-- The state after checking the two declarations. -/
def declState : CheckState :=
  evaluateTreeF 30 [idFunNode, gFunNode]

end Saffron

namespace Saffron

/-- `fun f(x) { x; }` — a named function with one unannotated parameter whose
body references it. -/
def simpleFunNode (x f : String) : Node :=
  .funcStmt (idTok f) [.positional (idTok x) none]
    [.exprStmt 1 (some (.variableN (idTok x)))]
    .typeFunction none []

/-- `fun (x) => { x; }` — a lambda with one unannotated parameter whose body
references it (its signature Functor records the missing annotation as a
null type node, as the parser builds it). -/
def lambdaNode : Node :=
  .lambda [.positional (idTok "x") none]
    [.exprStmt 1 (some (.variableN (idTok "x")))]
    (some (.functorTN [none] none []))

end Saffron

namespace Saffron

/-! ## The parser (`src/ast/astparse.c`)

The scanner is an external collaborator; the parser is modelled over the
token stream it would produce.  The global `parser` record becomes an
explicit state.  Node allocation is pure (the GC list is irrelevant here),
and diagnostics record the message text (the `[line N] Error at '…':`
prefix is formatting). -/

/-- The `Parser` globals: the remaining token stream, the two-token window,
and the error flags; `diags` is the list of messages actually printed. -/
structure PState where
  tokens : List Token
  current : Token
  previous : Token
  hadError : Bool
  panicMode : Bool
  diags : List String

/-- The EOF token the scanner yields forever once the source is spent. -/
def eofToken : Token :=
  { type := .eofTok, lexeme := "", line := 0, nval := 0 }

/-- `errorAt` (`src/ast/astparse.c:70`): suppressed in panic mode, else
enter panic mode, print, set `hadError`. -/
def errorAtP (msg : String) (st : PState) : PState :=
  if st.panicMode then st
  else { st with panicMode := true, hadError := true, diags := st.diags ++ [msg] }

/-- `error(message)`: report at `parser.previous`. -/
def errorP (msg : String) (st : PState) : PState :=
  errorAtP msg st

/-- `errorAtCurrent(message)`: report at `parser.current`. -/
def errorAtCurrentP (msg : String) (st : PState) : PState :=
  errorAtP msg st

/-- The scan-and-skip-error-tokens loop of `advance`; the list argument is
the state's remaining token stream (`scanToken` modelled as popping the
head; an exhausted stream scans EOF). -/
def advanceLoop : List Token → PState → PState
  | [], st => { st with tokens := [], current := eofToken }
  | t :: rest, st =>
    if t.type = .errorTok then
      advanceLoop rest (errorAtCurrentP t.lexeme { st with tokens := rest, current := t })
    else { st with tokens := rest, current := t }
termination_by structural l _ => l

/-- `advance()`. -/
def advanceP (st : PState) : PState :=
  advanceLoop st.tokens { st with previous := st.current }

/-- `consume(type, message)`. -/
def consumeP (ty : TokenType) (msg : String) (st : PState) : PState :=
  if st.current.type = ty then advanceP st else errorAtCurrentP msg st

/-- `check(type)`. -/
def checkP (ty : TokenType) (st : PState) : Bool :=
  st.current.type = ty

/-- `match(type)`. -/
def matchP (ty : TokenType) (st : PState) : Bool × PState :=
  if checkP ty st then (true, advanceP st) else (false, st)

/-- The twelve precedence levels. -/
inductive Precedence where
  | pNone | pAssignment | pYield | pOr | pAnd | pEquality | pComparison
  | pTerm | pFactor | pUnary | pCall | pPrimary
  deriving DecidableEq, Repr

/-- The numeric value of a precedence level (the C enum value), used for the
`≥` comparisons and the `+ 1` in `binary`. -/
def Precedence.toNat : Precedence → Nat
  | .pNone => 0 | .pAssignment => 1 | .pYield => 2 | .pOr => 3 | .pAnd => 4
  | .pEquality => 5 | .pComparison => 6 | .pTerm => 7 | .pFactor => 8
  | .pUnary => 9 | .pCall => 10 | .pPrimary => 11

/-- The prefix parselets appearing in `parseRules`. -/
inductive PrefixFn where
  | groupingFn | mapFn | listFn | unaryFn | numberFn | stringFn | atomFn
  | variableFn | literalFn | ifFn | superFn | thisFn | yieldFn
  deriving DecidableEq, Repr

/-- The infix parselets appearing in `parseRules`. -/
inductive InfixFn where
  | callFn | getItemFn | pipeFn | dotFn | binaryFn | andFn | orFn
  deriving DecidableEq, Repr

/-- One row of the rule table. -/
structure ParseRule where
  pfx : Option PrefixFn
  ifx : Option InfixFn
  prec : Precedence

/-- `parseRules` / `getRule` (`src/ast/astparse.c:410`); kinds not listed in
the C initializer are zero rows. -/
def getRule : TokenType → ParseRule
  | .leftParen => ⟨some .groupingFn, some .callFn, .pCall⟩
  | .leftBrace => ⟨some .mapFn, none, .pNone⟩
  | .leftBracket => ⟨some .listFn, some .getItemFn, .pCall⟩
  | .pipe => ⟨none, some .pipeFn, .pYield⟩
  | .dot => ⟨none, some .dotFn, .pCall⟩
  | .minus => ⟨some .unaryFn, some .binaryFn, .pTerm⟩
  | .plus => ⟨none, some .binaryFn, .pTerm⟩
  | .modulo => ⟨none, some .binaryFn, .pTerm⟩
  | .slash => ⟨none, some .binaryFn, .pFactor⟩
  | .star => ⟨none, some .binaryFn, .pFactor⟩
  | .bang => ⟨some .unaryFn, none, .pNone⟩
  | .bangEqual => ⟨none, some .binaryFn, .pEquality⟩
  | .equalEqual => ⟨none, some .binaryFn, .pEquality⟩
  | .greater => ⟨none, some .binaryFn, .pComparison⟩
  | .greaterEqual => ⟨none, some .binaryFn, .pComparison⟩
  | .less => ⟨none, some .binaryFn, .pComparison⟩
  | .lessEqual => ⟨none, some .binaryFn, .pComparison⟩
  | .identifier => ⟨some .variableFn, none, .pNone⟩
  | .atomTok => ⟨some .atomFn, none, .pNone⟩
  | .stringTok => ⟨some .stringFn, none, .pNone⟩
  | .numberTok => ⟨some .numberFn, none, .pNone⟩
  | .andTok => ⟨none, some .andFn, .pAnd⟩
  | .falseTok => ⟨some .literalFn, none, .pNone⟩
  | .ifTok => ⟨some .ifFn, none, .pNone⟩
  | .nilTok => ⟨some .literalFn, none, .pNone⟩
  | .orTok => ⟨none, some .orFn, .pOr⟩
  | .superTok => ⟨some .superFn, none, .pNone⟩
  | .thisTok => ⟨some .thisFn, none, .pNone⟩
  | .trueTok => ⟨some .literalFn, none, .pNone⟩
  | .yieldTok => ⟨some .yieldFn, none, .pNone⟩
  | _ => ⟨none, none, .pNone⟩

/-- `string`'s `copyString(start + 1, length - 2)`: strip the quotes. -/
def stripQuotes (s : String) : String :=
  (s.drop 1).take (s.length - 2)

/-- `atom`'s `copyAtom(start + 1, length - 1)`: strip the colon. -/
def stripColon (s : String) : String :=
  s.drop 1

/-- The in-place `exprs[i + 1] = exprs[i]` copy loop of `pipeCall`
(`src/ast/astparse.c:351`): `k` counts the remaining iterations
(`count - 1 - i` at entry `i`), reading each slot from the
already-modified list exactly as the C loop reads the mutated array. -/
def pipeCopyLoop : Nat → List Node → Nat → List Node
  | 0, args, _ => args
  | Nat.succ k, args, i =>
    match args.get? i with
    | some v => pipeCopyLoop k (args.set (i + 1) v) (i + 1)
    | none => args
termination_by structural k _ _ => k

/-- `append a null slot; shift; insert the piped value at index 0`
(`src/ast/astparse.c:348-354`).  The `NULL` written by `writeExprArray` is
always overwritten (by the copy loop, or by `left` when the list was
empty); a nil literal stands in for it. -/
def pipeShift (left : Node) (args : List Node) : List Node :=
  let args := args ++ [.lit .vnil]
  let args := pipeCopyLoop (args.length - 1) args 0
  args.set 0 left

end Saffron

namespace Saffron

/-- `parseVariable(errorMessage)`. -/
def parseVariableF (msg : String) (st : PState) : Token × PState :=
  let st := consumeP .identifier msg st
  (st.previous, st)

/-- The `while (match(TOKEN_SEMICOLON));` tail of `statement()`. -/
def skipSemisF : Nat → PState → PState
  | 0, st => st
  | Nat.succ fuel, st =>
    let c := matchP .semicolon st
    if c.1 then skipSemisF fuel c.2 else c.2
termination_by structural fuel _ => fuel

/-- `synchronize()` (`src/ast/astparse.c:933`): clear panic mode and skip to
a statement boundary.  NOTE: its only call site, at the end of
`declaration()`, sits after an if/else-if chain in which every branch
returns, so this function is never executed. -/
def synchronizeF (fuel : Nat) (st : PState) : PState :=
  synchronizeAux fuel { st with panicMode := false }
where
  synchronizeAux : Nat → PState → PState
    | 0, st => st
    | Nat.succ fuel, st =>
      if st.current.type = .eofTok then st
      else if st.previous.type = .semicolon then st
      else
        match st.current.type with
        | .classTok | .funTok | .varTok | .forTok | .ifTok | .whileTok
        | .returnTok => st
        | _ => synchronizeAux fuel (advanceP st)

mutual

/-- `parsePrecedence(precedence)` (`src/ast/astparse.c:463`), the Pratt
driver; `p` is the numeric precedence. -/
def parsePrecedenceF : Nat → PState → Nat → Option Node × PState
  | 0, st, _ => (none, st)
  | Nat.succ fuel, st, p =>
    let st1 := advanceP st
    match (getRule st1.previous.type).pfx with
    | none => (none, errorP "Expect expression." st1)
    | some pf =>
      let canAssign : Bool := decide (p ≤ Precedence.pAssignment.toNat)
      let rp := runPrefixF fuel st1 pf canAssign
      let il := infixLoopF fuel rp.2 p rp.1 canAssign
      if canAssign then
        let me := matchP .equal il.2
        (il.1, if me.1 then errorP "Invalid assignment target." me.2 else me.2)
      else (il.1, il.2)
termination_by structural fuel _ _ => fuel

/-- The `while (precedence <= getRule(parser.current.type)->precedence)`
loop of `parsePrecedence`.  (A row with an infix precedence above `None`
always carries an infix parselet, so the null-infix call cannot happen.) -/
def infixLoopF : Nat → PState → Nat → Option Node → Bool → Option Node × PState
  | 0, st, _, result, _ => (result, st)
  | Nat.succ fuel, st, p, result, canAssign =>
    if p ≤ (getRule st.current.type).prec.toNat then
      let st1 := advanceP st
      match (getRule st1.previous.type).ifx with
      | some inf =>
        let ri := runInfixF fuel st1 inf result canAssign
        infixLoopF fuel ri.2 p ri.1 canAssign
      | none => (result, st1)
    else (result, st)
termination_by structural fuel _ _ _ _ => fuel

/-- Dispatch on the prefix parselet of the rule row.  `number`, `string`,
`atom` and `literal` are inlined (they build a Literal from
`parser.previous`); `this_` delegates to `variable(false)` as in C. -/
def runPrefixF : Nat → PState → PrefixFn → Bool → Option Node × PState
  | 0, st, _, _ => (none, st)
  | Nat.succ fuel, st, pf, canAssign =>
    match pf with
    | .numberFn => (some (.lit (.num st.previous.nval)), st)
    | .stringFn => (some (.lit (.vstr (stripQuotes st.previous.lexeme))), st)
    | .atomFn => (some (.lit (.vatom (stripColon st.previous.lexeme))), st)
    | .literalFn =>
      match st.previous.type with
      | .falseTok => (some (.lit (.vbool false)), st)
      | .nilTok => (some (.lit .vnil), st)
      | .trueTok => (some (.lit (.vbool true)), st)
      | _ => (some (.lit .vnil), st)
    | .variableFn => variableF fuel st canAssign
    | .groupingFn => groupingF fuel st
    | .unaryFn => unaryF fuel st
    | .listFn => listF fuel st
    | .mapFn => mapF fuel st
    | .ifFn => ifExprF fuel st
    | .superFn => superF fuel st
    | .thisFn => variableF fuel st false
    | .yieldFn => yieldExprF fuel st
termination_by structural fuel _ _ _ => fuel

/-- Dispatch on the infix parselet of the rule row. -/
def runInfixF : Nat → PState → InfixFn → Option Node → Bool → Option Node × PState
  | 0, st, _, _, _ => (none, st)
  | Nat.succ fuel, st, inf, left, canAssign =>
    match inf with
    | .callFn => callF fuel st left
    | .getItemFn => getItemF fuel st left
    | .pipeFn => pipeCallF fuel st left
    | .dotFn => dotF fuel st left
    | .binaryFn => binaryF fuel st left
    | .andFn => andF fuel st left
    | .orFn => orF fuel st left
termination_by structural fuel _ _ _ _ => fuel

/-- `variable(canAssign)` (`src/ast/astparse.c:241`). -/
def variableF : Nat → PState → Bool → Option Node × PState
  | 0, st, _ => (none, st)
  | Nat.succ fuel, st, canAssign =>
    let name := st.previous
    if canAssign then
      let me := matchP .equal st
      if me.1 then
        let v := expressionF fuel me.2
        (some (.assign name v.1), v.2)
      else (some (.variableN name), me.2)
    else (some (.variableN name), st)
termination_by structural fuel _ _ => fuel

/-- `grouping(canAssign)`: no Grouping node — the inner expression is
returned directly. -/
def groupingF : Nat → PState → Option Node × PState
  | 0, st => (none, st)
  | Nat.succ fuel, st =>
    let e := expressionF fuel st
    (e.1, consumeP .rightParen "Expect ')' after expression." e.2)
termination_by structural fuel _ => fuel

/-- `unary(canAssign)`. -/
def unaryF : Nat → PState → Option Node × PState
  | 0, st => (none, st)
  | Nat.succ fuel, st =>
    let op := st.previous
    let e := parsePrecedenceF fuel st Precedence.pUnary.toNat
    (some (.unary op e.1), e.2)
termination_by structural fuel _ => fuel

/-- `list(canAssign)`. -/
def listF : Nat → PState → Option Node × PState
  | 0, st => (none, st)
  | Nat.succ fuel, st =>
    let bracket := st.previous
    let items := if checkP .rightBracket st then ([], st) else listItemsF fuel st []
    (some (.listN bracket items.1),
     consumeP .rightBracket "Expect ']' after list items." items.2)
termination_by structural fuel _ => fuel

/-- The item loop of `list` (a null item — possible only after a
diagnostic — is not recorded). -/
def listItemsF : Nat → PState → List Node → List Node × PState
  | 0, st, items => (items, st)
  | Nat.succ fuel, st, items =>
    if st.current.type = .rightBracket then (items, st)
    else
      let e := expressionF fuel st
      let items2 := match e.1 with | some i => items ++ [i] | none => items
      let c := matchP .comma e.2
      if c.1 then listItemsF fuel c.2 items2 else (items2, c.2)
termination_by structural fuel _ _ => fuel

/-- `map(canAssign)`. -/
def mapF : Nat → PState → Option Node × PState
  | 0, st => (none, st)
  | Nat.succ fuel, st =>
    let brace := st.previous
    let kv := if checkP .rightBrace st then ([], [], st) else mapItemsPF fuel st [] []
    (some (.mapN brace kv.1 kv.2.1),
     consumeP .rightBrace "Expect '\x7d' after map items." kv.2.2)
termination_by structural fuel _ => fuel

/-- The key/value loop of `map`. -/
def mapItemsPF : Nat → PState → List Node → List Node →
    List Node × List Node × PState
  | 0, st, keys, values => (keys, values, st)
  | Nat.succ fuel, st, keys, values =>
    if st.current.type = .rightBrace then (keys, values, st)
    else
      let k := expressionF fuel st
      let keys2 := match k.1 with | some x => keys ++ [x] | none => keys
      let st1 := consumeP .colon "Expect ':' after map key." k.2
      let v := expressionF fuel st1
      let values2 := match v.1 with | some x => values ++ [x] | none => values
      let c := matchP .comma v.2
      if c.1 then mapItemsPF fuel c.2 keys2 values2 else (keys2, values2, c.2)
termination_by structural fuel _ _ _ => fuel

/-- `binary(left, canAssign)`. -/
def binaryF : Nat → PState → Option Node → Option Node × PState
  | 0, st, _ => (none, st)
  | Nat.succ fuel, st, left =>
    let operator := st.previous
    let rule := getRule operator.type
    let rgt := parsePrecedenceF fuel st (rule.prec.toNat + 1)
    (some (.binary operator left rgt.1), rgt.2)
termination_by structural fuel _ _ => fuel

/-- `and_(left, canAssign)`: builds a Binary with the right side parsed at
the And level. -/
def andF : Nat → PState → Option Node → Option Node × PState
  | 0, st, _ => (none, st)
  | Nat.succ fuel, st, left =>
    let operator := st.previous
    let rgt := parsePrecedenceF fuel st Precedence.pAnd.toNat
    (some (.binary operator left rgt.1), rgt.2)
termination_by structural fuel _ _ => fuel

/-- `or_(left, canAssign)`. -/
def orF : Nat → PState → Option Node → Option Node × PState
  | 0, st, _ => (none, st)
  | Nat.succ fuel, st, left =>
    let operator := st.previous
    let rgt := parsePrecedenceF fuel st Precedence.pOr.toNat
    (some (.binary operator left rgt.1), rgt.2)
termination_by structural fuel _ _ => fuel

/-- `argumentList()` (`src/ast/astparse.c:300`). -/
def argumentListF : Nat → PState → List Node × PState
  | 0, st => ([], st)
  | Nat.succ fuel, st =>
    let items := if checkP .rightParen st then ([], st) else argItemsF fuel st [] 0
    (items.1, consumeP .rightParen "Expect ')' after arguments." items.2)
termination_by structural fuel _ => fuel

/-- The argument loop of `argumentList` (a null argument is not
recorded). -/
def argItemsF : Nat → PState → List Node → Nat → List Node × PState
  | 0, st, items, _ => (items, st)
  | Nat.succ fuel, st, items, argCount =>
    if st.current.type = .rightParen then (items, st)
    else
      let e := expressionF fuel st
      let items2 := match e.1 with | some x => items ++ [x] | none => items
      let st1 := if argCount = 255 then
                   errorP "Can't have more than 255 arguments." e.2
                 else e.2
      let c := matchP .comma st1
      if c.1 then argItemsF fuel c.2 items2 (argCount + 1) else (items2, c.2)
termination_by structural fuel _ _ _ => fuel

/-- `call(left, canAssign)`. -/
def callF : Nat → PState → Option Node → Option Node × PState
  | 0, st, _ => (none, st)
  | Nat.succ fuel, st, left =>
    let paren := st.previous
    let args := argumentListF fuel st
    (some (.call paren left args.1), args.2)
termination_by structural fuel _ _ => fuel

/-- `getItem(left, canAssign)`. -/
def getItemF : Nat → PState → Option Node → Option Node × PState
  | 0, st, _ => (none, st)
  | Nat.succ fuel, st, left =>
    let e := expressionF fuel st
    (some (.getItem left e.1), consumeP .rightBracket "Expect ']' after index." e.2)
termination_by structural fuel _ _ => fuel

/-- `pipeCall(left, canAssign)` (`src/ast/astparse.c:341`): re-parse the
right side at Call precedence; a non-Call shape (including a null parse
result, which the C would dereference) reports the diagnostic; otherwise
shift the arguments and insert the piped value at index 0. -/
def pipeCallF : Nat → PState → Option Node → Option Node × PState
  | 0, st, _ => (none, st)
  | Nat.succ fuel, st, left =>
    let r := parsePrecedenceF fuel st Precedence.pCall.toNat
    match r.1 with
    | some (.call paren callee args) =>
      (some (.call paren callee (pipeShift (left.getD (.lit .vnil)) args)), r.2)
    | _ => (none, errorAtCurrentP "Expected functional call after pipe operator!" r.2)
termination_by structural fuel _ _ => fuel

/-- `dot(left, canAssign)`. -/
def dotF : Nat → PState → Option Node → Option Node × PState
  | 0, st, _ => (none, st)
  | Nat.succ fuel, st, left =>
    let st1 := consumeP .identifier "Expect property name after '.'." st
    let name := st1.previous
    let me := matchP .equal st1
    if me.1 then
      let v := expressionF fuel me.2
      (some (.set left name v.1), v.2)
    else (some (.get left name), me.2)
termination_by structural fuel _ _ => fuel

/-- `super_(canAssign)`: the keyword slot is overwritten with the method
token, as in C. -/
def superF : Nat → PState → Option Node × PState
  | 0, st => (none, st)
  | Nat.succ fuel, st =>
    let st1 := consumeP .dot "Expect '.' after 'super'." st
    let st2 := consumeP .identifier "Expect superclass method name." st1
    (some (.superN st2.previous st2.previous), st2)
termination_by structural fuel _ => fuel

/-- `yield(canAssign)`: with an immediate semicolon the expression slot is
left unwritten in C (uninitialized), modelled as absent. -/
def yieldExprF : Nat → PState → Option Node × PState
  | 0, st => (none, st)
  | Nat.succ fuel, st =>
    if !checkP .semicolon st then
      let e := parsePrecedenceF fuel st Precedence.pYield.toNat
      (some (.yieldN e.1), e.2)
    else (some (.yieldN none), st)
termination_by structural fuel _ => fuel

/-- `ifStatement(canAssign)` — an expression parselet in this parser. -/
def ifExprF : Nat → PState → Option Node × PState
  | 0, st => (none, st)
  | Nat.succ fuel, st =>
    let st1 := consumeP .leftParen "Expect '(' after 'if'." st
    let cond := expressionF fuel st1
    let st2 := consumeP .rightParen "Expect ')' after condition." cond.2
    let ib := statementF fuel st2
    let he := matchP .elseTok ib.2
    if he.1 then
      let eb := statementF fuel he.2
      (some (.ifStmt cond.1 ib.1 eb.1), eb.2)
    else (some (.ifStmt cond.1 ib.1 none), he.2)
termination_by structural fuel _ => fuel

/-- `expression()` (`src/ast/astparse.c:569`). -/
def expressionF : Nat → PState → Option Node × PState
  | 0, st => (none, st)
  | Nat.succ fuel, st =>
    let mf := matchP .funTok st
    if mf.1 then anonFunctionF fuel mf.2
    else parsePrecedenceF fuel mf.2 Precedence.pAssignment.toNat
termination_by structural fuel _ => fuel

/-- The parameter-list loop shared (verbatim, three times) by `function`,
`anonFunction` and `methodSignature`: names with optional `: type`
annotations; unannotated slots record null type nodes (the C leaves the
Positional node's own type field uninitialized there).  Returns the
Positional nodes and the parallel type-node list. -/
def parseParamsF : Nat → PState → (List Node × List (Option Node)) × PState
  | 0, st => (([], []), st)
  | Nat.succ fuel, st =>
    if checkP .rightParen st then (([], []), st)
    else paramsLoopF fuel st [] [] 0
termination_by structural fuel _ => fuel

/-- One `do … while (match(TOKEN_COMMA))` pass of the parameter loop. -/
def paramsLoopF : Nat → PState → List Node → List (Option Node) → Nat →
    (List Node × List (Option Node)) × PState
  | 0, st, params, types, _ => ((params, types), st)
  | Nat.succ fuel, st, params, types, argCount =>
    let argCount2 := argCount + 1
    let st1 := if argCount2 > 255 then
                 errorAtCurrentP "Can't have more than 255 parameters." st
               else st
    let nm := parseVariableF "Expect parameter name." st1
    let c := matchP .colon nm.2
    if c.1 then
      let tn := typeAnnotationF fuel c.2
      let params2 := params ++ [Node.positional nm.1 tn.1]
      let types2 := types ++ [tn.1]
      let c2 := matchP .comma tn.2
      if c2.1 then paramsLoopF fuel c2.2 params2 types2 argCount2
      else ((params2, types2), c2.2)
    else
      let params2 := params ++ [Node.positional nm.1 none]
      let types2 := types ++ [(none : Option Node)]
      let c2 := matchP .comma c.2
      if c2.1 then paramsLoopF fuel c2.2 params2 types2 argCount2
      else ((params2, types2), c2.2)
termination_by structural fuel _ _ _ _ => fuel

/-- `anonFunction(canAssign)` (`src/ast/astparse.c:501`): a Lambda whose
signature Functor carries the type-node list, the return annotation and the
generics; a single-expression body is wrapped in a Return (whose keyword
token the C leaves unset; the EOF token stands in) inside a Block. -/
def anonFunctionF : Nat → PState → Option Node × PState
  | 0, st => (none, st)
  | Nat.succ fuel, st =>
    let lt := matchP .less st
    let gen := if lt.1 then genericArgDefinitionsF fuel lt.2 else ([], lt.2)
    let st1 := consumeP .leftParen "Expect '(' after fun keyword." gen.2
    let ps := parseParamsF fuel st1
    let st2 := consumeP .rightParen "Expect ')' after parameters." ps.2
    let c := matchP .colon st2
    let rt := if c.1 then typeAnnotationF fuel c.2 else (none, c.2)
    let st3 := consumeP .arrow "Expect '=>' after parameters." rt.2
    let lb := matchP .leftBrace st3
    if lb.1 then
      let bl := blockF fuel lb.2
      let stmts := match bl.1 with | some (.block bs) => bs | _ => []
      (some (.lambda ps.1.1 stmts (some (.functorTN ps.1.2 rt.1 gen.1))), bl.2)
    else
      let e := expressionF fuel lb.2
      (some (.lambda ps.1.1 [Node.returnStmt eofToken e.1]
        (some (.functorTN ps.1.2 rt.1 gen.1))), e.2)
termination_by structural fuel _ => fuel

/-- `expressionStatement()`. -/
def exprStatementF : Nat → PState → Option Node × PState
  | 0, st => (none, st)
  | Nat.succ fuel, st =>
    let lineno := st.current.line
    let e := expressionF fuel st
    let ms := matchP .semicolon e.2
    (some (.exprStmt lineno e.1), ms.2)
termination_by structural fuel _ => fuel

/-- `block()` (`src/ast/astparse.c:588`). -/
def blockF : Nat → PState → Option Node × PState
  | 0, st => (none, st)
  | Nat.succ fuel, st =>
    let bs := blockStmtsF fuel st []
    (some (.block bs.1), consumeP .rightBrace "Expect '\x7d' after block." bs.2)
termination_by structural fuel _ => fuel

/-- The declaration loop of `block` (a null declaration is not
recorded). -/
def blockStmtsF : Nat → PState → List Node → List Node × PState
  | 0, st, acc => (acc, st)
  | Nat.succ fuel, st, acc =>
    if !checkP .rightBrace st && !checkP .eofTok st then
      let d := declarationF fuel st
      let acc2 := match d.1 with | some x => acc ++ [x] | none => acc
      blockStmtsF fuel d.2 acc2
    else (acc, st)
termination_by structural fuel _ _ => fuel

/-- `function(type)` (`src/ast/astparse.c:602`); the name token is assigned
by the caller in C and passed in here. -/
def functionF : Nat → PState → Token → FunctionType → Option Node × PState
  | 0, st, _, _ => (none, st)
  | Nat.succ fuel, st, name, ftype =>
    let lt := matchP .less st
    let gen := if lt.1 then genericArgDefinitionsF fuel lt.2 else ([], lt.2)
    let st1 := consumeP .leftParen "Expect '(' after function name." gen.2
    let ps := parseParamsF fuel st1
    let st2 := consumeP .rightParen "Expect ')' after parameters." ps.2
    let c := matchP .colon st2
    let rt := if c.1 then typeAnnotationF fuel c.2 else (none, c.2)
    let st3 := consumeP .leftBrace "Expect '\x7b' before function body." rt.2
    let bl := blockF fuel st3
    let body := match bl.1 with | some (.block bs) => bs | _ => []
    (some (.funcStmt name ps.1.1 body ftype rt.1 gen.1), bl.2)
termination_by structural fuel _ _ _ => fuel

/-- `whileStatement()`. -/
def whileStatementF : Nat → PState → Option Node × PState
  | 0, st => (none, st)
  | Nat.succ fuel, st =>
    let st1 := consumeP .leftParen "Expect '(' after 'while'." st
    let cond := expressionF fuel st1
    let st2 := consumeP .rightParen "Expect ')' after condition." cond.2
    let b := statementF fuel st2
    (some (.whileStmt cond.1 b.1), b.2)
termination_by structural fuel _ => fuel

/-- `genericArgDefinitions()` (`src/ast/astparse.c:687`). -/
def genericArgDefinitionsF : Nat → PState → List Node × PState
  | 0, st => ([], st)
  | Nat.succ fuel, st =>
    let g := matchP .greater st
    if g.1 then ([], g.2) else genericDefsLoopF fuel g.2 []
termination_by structural fuel _ => fuel

/-- The `do … while (match(TOKEN_COMMA))` loop of
`genericArgDefinitions`. -/
def genericDefsLoopF : Nat → PState → List Node → List Node × PState
  | 0, st, acc => (acc, st)
  | Nat.succ fuel, st, acc =>
    let st1 := consumeP .identifier "Expected identifier in generic argument list." st
    let name := st1.previous
    let ext := matchP .extendsTok st1
    let tgt := if ext.1 then typeAnnotationF fuel ext.2 else (none, ext.2)
    let acc2 := acc ++ [Node.typeDeclTN name tgt.1 []]
    let c := matchP .comma tgt.2
    if c.1 then genericDefsLoopF fuel c.2 acc2
    else (acc2, consumeP .greater "Expected '>' after generic argument list." c.2)
termination_by structural fuel _ _ => fuel

/-- `functionTypeAnnotation()` (`src/ast/astparse.c:715`). -/
def functionTypeAnnotationF : Nat → PState → Option Node × PState
  | 0, st => (none, st)
  | Nat.succ fuel, st =>
    let args := ftaArgsF fuel st []
    let st1 := consumeP .rightParen "Expect ')' after functor type arguments." args.2
    let st2 := consumeP .arrow "Expect '=>' after functor type arguments." st1
    let ret := typeAnnotationF fuel st2
    (some (.functorTN args.1 ret.1 []), ret.2)
termination_by structural fuel _ => fuel

/-- The argument loop of `functionTypeAnnotation`. -/
def ftaArgsF : Nat → PState → List (Option Node) → List (Option Node) × PState
  | 0, st, acc => (acc, st)
  | Nat.succ fuel, st, acc =>
    let tn := typeAnnotationF fuel st
    let acc2 := acc ++ [tn.1]
    let c := matchP .comma tn.2
    if c.1 then ftaArgsF fuel c.2 acc2 else (acc2, c.2)
termination_by structural fuel _ _ => fuel

/-- `simpleTypeAnnotation()` (`src/ast/astparse.c:735`). -/
def simpleTypeAnnotationF : Nat → PState → Option Node × PState
  | 0, st => (none, st)
  | Nat.succ fuel, st =>
    let name := st.previous
    let lt := matchP .less st
    if lt.1 then
      let gens := simpleGenericsF fuel lt.2 []
      (some (.simpleTN name gens.1),
       consumeP .greater "Expect '>' after generic type argument." gens.2)
    else (some (.simpleTN name []), lt.2)
termination_by structural fuel _ => fuel

/-- The generic-argument loop of `simpleTypeAnnotation` (a null argument is
not recorded). -/
def simpleGenericsF : Nat → PState → List Node → List Node × PState
  | 0, st, acc => (acc, st)
  | Nat.succ fuel, st, acc =>
    let arg := typeAnnotationF fuel st
    let acc2 := match arg.1 with | some a => acc ++ [a] | none => acc
    let c := matchP .comma arg.2
    if c.1 then simpleGenericsF fuel c.2 acc2 else (acc2, c.2)
termination_by structural fuel _ _ => fuel

/-- `typeAnnotation()` (`src/ast/astparse.c:759`): functor (with optional
leading generic list), parenthesized functor, or simple; then the
right-associative union tail. -/
def typeAnnotationF : Nat → PState → Option Node × PState
  | 0, st => (none, st)
  | Nat.succ fuel, st =>
    let lt := matchP .less st
    if lt.1 then
      let gargs := genericArgDefinitionsF fuel lt.2
      let f := functionTypeAnnotationF fuel gargs.2
      let leftType := match f.1 with
        | some (.functorTN args ret _) => some (Node.functorTN args ret gargs.1)
        | other => other
      unionTailF fuel f.2 leftType
    else
      let lp := matchP .leftParen lt.2
      if lp.1 then
        let f := functionTypeAnnotationF fuel lp.2
        unionTailF fuel f.2 f.1
      else
        let idm := matchP .identifier lp.2
        if idm.1 then
          let s := simpleTypeAnnotationF fuel idm.2
          unionTailF fuel s.2 s.1
        else (none, errorP "Expect identifier or functor type." idm.2)
termination_by structural fuel _ => fuel

/-- The `'|' typeAnnotation` union tail (right-associative). -/
def unionTailF : Nat → PState → Option Node → Option Node × PState
  | 0, st, l => (l, st)
  | Nat.succ fuel, st, leftType =>
    let bo := matchP .bitwiseOr st
    if !bo.1 then (leftType, bo.2)
    else
      let rt := typeAnnotationF fuel bo.2
      (some (.unionTN leftType rt.1), rt.2)
termination_by structural fuel _ _ => fuel

/-- `fieldDeclaration(assignmentType)` (`src/ast/astparse.c:788`). -/
def fieldDeclarationF : Nat → PState → AssignmentType → Option Node × PState
  | 0, st, _ => (none, st)
  | Nat.succ fuel, st, at_ =>
    let nm := parseVariableF "Expect variable name." st
    let st1 := consumeP .colon "Expect type annotation" nm.2
    let ty := typeAnnotationF fuel st1
    let ms := matchP .semicolon ty.2
    (some (.varStmt nm.1 none ty.1 at_), ms.2)
termination_by structural fuel _ _ => fuel

/-- `varDeclaration(assignmentType)` (`src/ast/astparse.c:803`). -/
def varDeclarationF : Nat → PState → AssignmentType → Option Node × PState
  | 0, st, _ => (none, st)
  | Nat.succ fuel, st, at_ =>
    let nm := parseVariableF "Expect variable name." st
    let c := matchP .colon nm.2
    let ty := if c.1 then typeAnnotationF fuel c.2 else (none, c.2)
    let e := matchP .equal ty.2
    let value := if e.1 then expressionF fuel e.2 else (none, e.2)
    match ty.1, value.1 with
    | none, none =>
      (none, errorAtCurrentP "Var without initializer must provide a type!" value.2)
    | _, _ =>
      let ms := matchP .semicolon value.2
      (some (.varStmt nm.1 value.1 ty.1 at_), ms.2)
termination_by structural fuel _ _ => fuel

/-- `typeDeclaration()` (`src/ast/astparse.c:831`). -/
def typeDeclarationF : Nat → PState → Option Node × PState
  | 0, st => (none, st)
  | Nat.succ fuel, st =>
    let nm := parseVariableF "Expect type name." st
    let lt := matchP .less nm.2
    let gens := if lt.1 then genericArgDefinitionsF fuel lt.2 else ([], lt.2)
    let st1 := consumeP .equal "Expect '=' after type name." gens.2
    let tgt := typeAnnotationF fuel st1
    let ms := matchP .semicolon tgt.2
    (some (.typeDeclTN nm.1 tgt.1 gens.1), ms.2)
termination_by structural fuel _ => fuel

/-- `forStatement()` (`src/ast/astparse.c:849`). -/
def forStatementF : Nat → PState → Option Node × PState
  | 0, st => (none, st)
  | Nat.succ fuel, st =>
    let st1 := consumeP .leftParen "Expect '(' after 'for'." st
    let sc := matchP .semicolon st1
    let ini :=
      if sc.1 then ((none : Option Node), sc.2)
      else
        let v := matchP .varTok sc.2
        if v.1 then varDeclarationF fuel v.2 .typeVariable
        else exprStatementF fuel v.2
    let sc2 := matchP .semicolon ini.2
    let cond :=
      if sc2.1 then ((none : Option Node), sc2.2)
      else
        let c := expressionF fuel sc2.2
        (c.1, consumeP .semicolon "Expect ';' after loop condition." c.2)
    let rp := matchP .rightParen cond.2
    let inc :=
      if rp.1 then ((none : Option Node), rp.2)
      else
        let i := expressionF fuel rp.2
        (i.1, consumeP .rightParen "Expect ')' after for clauses." i.2)
    let b := statementF fuel inc.2
    (some (.forStmt ini.1 cond.1 inc.1 b.1), b.2)
termination_by structural fuel _ => fuel

/-- `importStatement()` (`src/ast/astparse.c:881`). -/
def importStatementF : Nat → PState → Option Node × PState
  | 0, st => (none, st)
  | Nat.succ fuel, st =>
    let st1 := consumeP .stringTok "Expect '\"' after import." st
    let s : Node := .lit (.vstr (stripQuotes st1.previous.lexeme))
    let st2 := consumeP .asTok "Expect 'as' after import path." st1
    let nm := parseVariableF "Expect name after 'as' in import." st2
    let ms := matchP .semicolon nm.2
    (some (.importStmt (some s) nm.1), ms.2)
termination_by structural fuel _ => fuel

/-- `returnStatement()` (`src/ast/astparse.c:892`). -/
def returnStatementF : Nat → PState → Option Node × PState
  | 0, st => (none, st)
  | Nat.succ fuel, st =>
    let keyword := st.previous
    let sc := matchP .semicolon st
    if sc.1 then (some (.returnStmt keyword none), sc.2)
    else
      let v := expressionF fuel sc.2
      let ms := matchP .semicolon v.2
      (some (.returnStmt keyword v.1), ms.2)
termination_by structural fuel _ => fuel

/-- `statement()` (`src/ast/astparse.c:909`), with its trailing
semicolon-skipping loop. -/
def statementF : Nat → PState → Option Node × PState
  | 0, st => (none, st)
  | Nat.succ fuel, st =>
    let r := matchP .returnTok st
    let res :=
      if r.1 then returnStatementF fuel r.2
      else
        let w := matchP .whileTok r.2
        if w.1 then whileStatementF fuel w.2
        else
          let f := matchP .forTok w.2
          if f.1 then forStatementF fuel f.2
          else
            let b := matchP .leftBrace f.2
            if b.1 then blockF fuel b.2
            else
              let i := matchP .importTok b.2
              if i.1 then importStatementF fuel i.2
              else exprStatementF fuel i.2
    (res.1, skipSemisF fuel res.2)
termination_by structural fuel _ => fuel

/-- `method()` (`src/ast/astparse.c:962`). -/
def methodF : Nat → PState → Option Node × PState
  | 0, st => (none, st)
  | Nat.succ fuel, st =>
    let st1 := consumeP .funTok "Expect 'var' or 'fun' keyword." st
    let st2 := consumeP .identifier "Expect method name." st1
    let name := st2.previous
    let ftype : FunctionType :=
      if st2.previous.lexeme = "init" then .typeInitializer else .typeMethod
    functionF fuel st2 name ftype
termination_by structural fuel _ => fuel

/-- `classDeclaration()` (`src/ast/astparse.c:977`). -/
def classDeclarationF : Nat → PState → Option Node × PState
  | 0, st => (none, st)
  | Nat.succ fuel, st =>
    let st1 := consumeP .identifier "Expect class name." st
    let className := st1.previous
    let lt := matchP .less st1
    let gen := if lt.1 then genericArgDefinitionsF fuel lt.2 else ([], lt.2)
    let ext := matchP .extendsTok gen.2
    let sv :=
      if ext.1 then
        let st2 := consumeP .identifier "Expect superclass name." ext.2
        let v := variableF fuel st2 false
        (v.1,
         if className.lexeme = v.2.previous.lexeme then
           errorP "A class can't inherit from itself." v.2
         else v.2)
      else ((none : Option Node), ext.2)
    let st3 := consumeP .leftBrace "Expect '\x7b' before class body." sv.2
    let body := classBodyF fuel st3 []
    (some (.classStmt className sv.1 body.1 gen.1),
     consumeP .rightBrace "Expect '\x7d' after class body." body.2)
termination_by structural fuel _ => fuel

/-- The member loop of `classDeclaration`. -/
def classBodyF : Nat → PState → List Node → List Node × PState
  | 0, st, acc => (acc, st)
  | Nat.succ fuel, st, acc =>
    if !checkP .rightBrace st && !checkP .eofTok st then
      let v := matchP .varTok st
      let m := if v.1 then varDeclarationF fuel v.2 .typeField else methodF fuel v.2
      let acc2 := match m.1 with | some x => acc ++ [x] | none => acc
      classBodyF fuel m.2 acc2
    else (acc, st)
termination_by structural fuel _ _ => fuel

/-- `methodSignature()` (`src/ast/astparse.c:1020`).  (As in C, the `init`
test reads `parser.previous` after any generic list has been parsed.) -/
def methodSignatureF : Nat → PState → Option Node × PState
  | 0, st => (none, st)
  | Nat.succ fuel, st =>
    let st1 := consumeP .funTok "Expect 'fun' in interface body." st
    let st2 := consumeP .identifier "Expect method name." st1
    let name := st2.previous
    let lt := matchP .less st2
    let gen := if lt.1 then genericArgDefinitionsF fuel lt.2 else ([], lt.2)
    let ftype : FunctionType :=
      if gen.2.previous.lexeme = "init" then .typeInitializer else .typeMethod
    let st3 := consumeP .leftParen "Expect '(' after function name." gen.2
    let ps := parseParamsF fuel st3
    let st4 := consumeP .rightParen "Expect ')' after parameters." ps.2
    let c := matchP .colon st4
    let rt := if c.1 then typeAnnotationF fuel c.2 else (none, c.2)
    (some (.methodSig name ps.1.1 ftype rt.1 gen.1), rt.2)
termination_by structural fuel _ => fuel

/-- `interfaceDeclaration()` (`src/ast/astparse.c:1084`).  The `extends`
clause calls `fieldDeclaration` (as the C does), producing a Var node as
the super-type slot. -/
def interfaceDeclarationF : Nat → PState → Option Node × PState
  | 0, st => (none, st)
  | Nat.succ fuel, st =>
    let st1 := consumeP .identifier "Expect an interface name." st
    let interfaceName := st1.previous
    let lt := matchP .less st1
    let gen := if lt.1 then genericArgDefinitionsF fuel lt.2 else ([], lt.2)
    let ext := matchP .extendsTok gen.2
    let sv :=
      if ext.1 then
        let st2 := consumeP .identifier "Expect superclass name." ext.2
        let v := fieldDeclarationF fuel st2 .typeVariable
        (v.1,
         if interfaceName.lexeme = v.2.previous.lexeme then
           errorP "An interface can't extend from itself." v.2
         else v.2)
      else ((none : Option Node), ext.2)
    let st3 := consumeP .leftBrace "Expect '\x7b' before interface body." sv.2
    let body := interfaceBodyF fuel st3 []
    (some (.interfaceStmt interfaceName sv.1 body.1 gen.1),
     consumeP .rightBrace "Expect '\x7d' after interface body." body.2)
termination_by structural fuel _ => fuel

/-- The member loop of `interfaceDeclaration`. -/
def interfaceBodyF : Nat → PState → List Node → List Node × PState
  | 0, st, acc => (acc, st)
  | Nat.succ fuel, st, acc =>
    if !checkP .rightBrace st && !checkP .eofTok st then
      let v := matchP .varTok st
      let m := if v.1 then varDeclarationF fuel v.2 .typeField
               else methodSignatureF fuel v.2
      let acc2 := match m.1 with | some x => acc ++ [x] | none => acc
      interfaceBodyF fuel m.2 acc2
    else (acc, st)
termination_by structural fuel _ _ => fuel

/-- `funDeclaration()` (`src/ast/astparse.c:955`). -/
def funDeclarationF : Nat → PState → Option Node × PState
  | 0, st => (none, st)
  | Nat.succ fuel, st =>
    let nm := parseVariableF "Expect function name." st
    functionF fuel nm.2 nm.1 .typeFunction
termination_by structural fuel _ => fuel

/-- `declaration()` (`src/ast/astparse.c:1127`).  Every branch returns, so
the trailing `if (parser.panicMode) synchronize();` in the C source is dead
code and panic mode is never cleared during a parse. -/
def declarationF : Nat → PState → Option Node × PState
  | 0, st => (none, st)
  | Nat.succ fuel, st =>
    let c := matchP .classTok st
    if c.1 then classDeclarationF fuel c.2
    else
      let f := matchP .funTok c.2
      if f.1 then funDeclarationF fuel f.2
      else
        let v := matchP .varTok f.2
        if v.1 then varDeclarationF fuel v.2 .typeVariable
        else
          let i := matchP .interfaceTok v.2
          if i.1 then interfaceDeclarationF fuel i.2
          else
            let t := matchP .typeTok i.2
            if t.1 then typeDeclarationF fuel t.2
            else statementF fuel t.2
termination_by structural fuel _ => fuel

/-- The `while (!match(TOKEN_EOF))` loop of `parseAST`;
`writeStmtArray(statements, declaration())` records null results too. -/
def parseASTLoopF : Nat → PState → List (Option Node) → List (Option Node) × PState
  | 0, st, acc => (acc, st)
  | Nat.succ fuel, st, acc =>
    let e := matchP .eofTok st
    if e.1 then (acc, e.2)
    else
      let d := declarationF fuel e.2
      parseASTLoopF fuel d.2 (acc ++ [d.1])
termination_by structural fuel _ _ => fuel

end

/-- `parseAST(source)` (`src/ast/astparse.c:1145`): reset the flags, prime
the window, parse declarations to EOF, and return the statements — or null
when `hadError` is set. -/
def parseASTF (fuel : Nat) (tokens : List Token) :
    Option (List (Option Node)) × PState :=
  let st0 : PState :=
    { tokens := tokens, current := eofToken, previous := eofToken,
      hadError := false, panicMode := false, diags := [] }
  let st1 := advanceP st0
  let res := parseASTLoopF fuel st1 []
  let st2 := consumeP .eofTok "Expect end of expression." res.2
  (if st2.hadError then none else some res.1, st2)

end Saffron

namespace Saffron

/-- Tokens of `x | f(y, z);` (each on line 1). -/
def pipe2Toks : List Token :=
  [idTok "x", mkTok .pipe "|", idTok "f", mkTok .leftParen "(",
   idTok "y", mkTok .comma ",", idTok "z", mkTok .rightParen ")",
   mkTok .semicolon ";"]

/-- Tokens of `x | f(y);`. -/
def pipe1Toks : List Token :=
  [idTok "x", mkTok .pipe "|", idTok "f", mkTok .leftParen "(",
   idTok "y", mkTok .rightParen ")", mkTok .semicolon ";"]

/-- Tokens of `x | 3;`. -/
def pipeBadToks : List Token :=
  [idTok "x", mkTok .pipe "|", mkTok .numberTok "3", mkTok .semicolon ";"]

/-- Tokens of `var ; var ;`: two consecutive `var` declarations, each
missing its variable name. -/
def varVarToks : List Token :=
  [mkTok .varTok "var", mkTok .semicolon ";",
   mkTok .varTok "var", mkTok .semicolon ";"]

/-- The parse-state invariant coupling `parser.hadError` with the reported
diagnostics: the flag is set iff at least one diagnostic has been issued. -/
def PInv (st : PState) : Prop := st.hadError = true ↔ st.diags ≠ []

end Saffron

namespace Saffron

/-- C5: with an empty sleeper set but a registered reader on fd 5 that is in
fact readable, `getTasks` returns 0 immediately and leaves the state
untouched: the early `return 0` fires before any `select` polling, so fd
waiters are never resumed.  The claim (and the spec's pump contract) says the
reader/writer fds are polled even when the sleeper set is empty. -/
theorem getTasks_ignores_io_waiters_without_sleepers :
    getTasks 0 (fun _ => true) (fun _ => true)
      { emptySched with readers := [7], readerFds := [.num 5] } =
    (0, { emptySched with readers := [7], readerFds := [.num 5] }) := by
  rfl

end Saffron

namespace Saffron

/-- C6 counterexample: a non-list yield does not always leave the waiter sets
alone.  With the ready queue at its last position and an expired sleeper, the
non-list branch wraps around and calls `getTasks`, which removes the sleeper
from the sleeper set (moving it to the ready queue). -/
theorem handle_yield_nonlist_pumps_sleepers :
    (handle_yield_value 1 (fun _ => false) (fun _ => false) (.num 5)
      { emptySched with tasks := [0], sleepers := [1], sleeperTimes := [0] }).sleepers = []
    ∧ ({ emptySched with tasks := [0], sleepers := [1], sleeperTimes := [0] } : Sched).sleepers
        = [1] := by
  constructor <;> rfl

/-- C6 (amended): the five shapes of `handle_yield_value`.  A `[1, a]` yield
appends the current frame to the sleeper set keyed `now + a` and removes it
from the ready queue; `[2, fd]` and `[4, fd]` do the same into the reader and
writer sets keyed `fd`; a list with any other op only records the runtime
error `"Invalid yield op <N>"`; a non-list merely advances the current-task
index.  (The op branches and the non-list branch are stated away from the
wrap-around position, where the code additionally runs the `getTasks` pump —
see the counterexample.) -/
theorem handle_yield_value_cases :
    (∀ (st : Sched) (now : Rat) (rin rout : Int → Bool) (a : Rat),
       st.currentTask < (st.tasks.eraseIdx st.currentTask).length →
       handle_yield_value now rin rout (.vlist [.num 1, .num a]) st =
         { st with
             sleepers := st.sleepers ++ [st.currentFrame]
             sleeperTimes := st.sleeperTimes ++ [now + a]
             tasks := st.tasks.eraseIdx st.currentTask }) ∧
    (∀ (st : Sched) (now : Rat) (rin rout : Int → Bool) (f : Rat),
       st.currentTask < (st.tasks.eraseIdx st.currentTask).length →
       handle_yield_value now rin rout (.vlist [.num 2, .num f]) st =
         { st with
             readers := st.readers ++ [st.currentFrame]
             readerFds := st.readerFds ++ [.num f]
             tasks := st.tasks.eraseIdx st.currentTask }) ∧
    (∀ (st : Sched) (now : Rat) (rin rout : Int → Bool) (f : Rat),
       st.currentTask < (st.tasks.eraseIdx st.currentTask).length →
       handle_yield_value now rin rout (.vlist [.num 4, .num f]) st =
         { st with
             writers := st.writers ++ [st.currentFrame]
             writerFds := st.writerFds ++ [.num f]
             tasks := st.tasks.eraseIdx st.currentTask }) ∧
    (∀ (st : Sched) (now : Rat) (rin rout : Int → Bool) (q : Rat) (a : RVal),
       ratTrunc q ≠ 1 → ratTrunc q ≠ 2 → ratTrunc q ≠ 4 →
       handle_yield_value now rin rout (.vlist [.num q, a]) st =
         { st with
             errors := st.errors ++ ["Invalid yield op " ++ toString (ratTrunc q)] }) ∧
    (∀ (st : Sched) (now : Rat) (rin rout : Int → Bool) (v : RVal),
       v.isList = false → st.currentTask + 1 < st.tasks.length →
       handle_yield_value now rin rout v st =
         { st with currentTask := st.currentTask + 1 }) := by
  refine ⟨?_, ?_, ?_, ?_, ?_⟩
  · intro st now rin rout a h
    simp only [handle_yield_value, getListItem, List.getD, RVal.isNil, RVal.isNumber,
      RVal.asNumber, advanceAfterRemove, popAt, Bool.not_true, Bool.or_false]
    norm_num [ratTrunc]
    rw [if_neg (by omega)]
    simp [Nat.mod_eq_of_lt h]
  · intro st now rin rout f h
    simp only [handle_yield_value, getListItem, List.getD, RVal.isNil, RVal.isNumber,
      RVal.asNumber, advanceAfterRemove, popAt, Bool.not_true, Bool.or_false]
    norm_num [ratTrunc]
    rw [if_neg (by omega)]
    simp [Nat.mod_eq_of_lt h]
  · intro st now rin rout f h
    simp only [handle_yield_value, getListItem, List.getD, RVal.isNil, RVal.isNumber,
      RVal.asNumber, advanceAfterRemove, popAt, Bool.not_true, Bool.or_false]
    norm_num [ratTrunc]
    rw [if_neg (by omega)]
    simp [Nat.mod_eq_of_lt h]
  · intro st now rin rout q a h1 h2 h4
    simp only [handle_yield_value, getListItem, List.getD, RVal.isNil, RVal.isNumber,
      RVal.asNumber, runtimeError]
    simp [h1, h2, h4]
  · intro st now rin rout v hv h
    cases v with
    | vlist items => simp [RVal.isList] at hv
    | num q =>
        simp only [handle_yield_value]
        rw [if_neg (by omega)]
        simp [Nat.mod_eq_of_lt h]
    | vbool b =>
        simp only [handle_yield_value]
        rw [if_neg (by omega)]
        simp [Nat.mod_eq_of_lt h]
    | vnil =>
        simp only [handle_yield_value]
        rw [if_neg (by omega)]
        simp [Nat.mod_eq_of_lt h]
    | vstr s =>
        simp only [handle_yield_value]
        rw [if_neg (by omega)]
        simp [Nat.mod_eq_of_lt h]
    | vatom s =>
        simp only [handle_yield_value]
        rw [if_neg (by omega)]
        simp [Nat.mod_eq_of_lt h]

end Saffron

namespace Saffron

/-- Witness for `handle_yield_value_cases` at concrete scheduler states. -/
theorem handle_yield_value_cases_witness :
    (handle_yield_value 0 (fun _ => false) (fun _ => false) (.vlist [.num 1, .num 3])
       { emptySched with tasks := [5, 6] } =
       { emptySched with tasks := [6], sleepers := [0], sleeperTimes := [3] }) ∧
    (handle_yield_value 0 (fun _ => false) (fun _ => false) (.vlist [.num 2, .num 7])
       { emptySched with tasks := [5, 6] } =
       { emptySched with tasks := [6], readers := [0], readerFds := [.num 7] }) ∧
    (handle_yield_value 0 (fun _ => false) (fun _ => false) (.vlist [.num 4, .num 8])
       { emptySched with tasks := [5, 6] } =
       { emptySched with tasks := [6], writers := [0], writerFds := [.num 8] }) ∧
    (handle_yield_value 0 (fun _ => false) (fun _ => false) (.vlist [.num 99, .vnil])
       emptySched = { emptySched with errors := ["Invalid yield op 99"] }) ∧
    (handle_yield_value 0 (fun _ => false) (fun _ => false) (.num 0)
       { emptySched with tasks := [5, 6] } =
       { emptySched with tasks := [5, 6], currentTask := 1 }) := by
  obtain ⟨h1, h2, h4, hbad, hnl⟩ := handle_yield_value_cases
  refine ⟨?_, ?_, ?_, ?_, ?_⟩
  · simpa using h1 { emptySched with tasks := [5, 6] } 0
      (fun _ => false) (fun _ => false) 3 (by simp [emptySched])
  · simpa using h2 { emptySched with tasks := [5, 6] } 0
      (fun _ => false) (fun _ => false) 7 (by simp [emptySched])
  · simpa using h4 { emptySched with tasks := [5, 6] } 0
      (fun _ => false) (fun _ => false) 8 (by simp [emptySched])
  · simpa [emptySched] using hbad emptySched 0 (fun _ => false) (fun _ => false) 99 .vnil
      (by norm_num [ratTrunc]) (by norm_num [ratTrunc]) (by norm_num [ratTrunc])
  · simpa using hnl { emptySched with tasks := [5, 6] } 0
      (fun _ => false) (fun _ => false) (.num 0) (by simp [RVal.isList]) (by simp [emptySched])

end Saffron

namespace Saffron

/-- C1 counterexample: `isSubType(Never, Number)` is `false`.  `Never` is a
plain Simple descriptor with no `superType`, so against a Simple on the right
the superclass-chain walk fails immediately; there is no general
`Never ≤ T` rule in the code. -/
theorem isSubType_never_number_false :
    (isSubTypeF 10 baseState neverId numberId).1 = false := by
  rfl

/-- C1 (amended): for every descriptor `T`, `isSubType(T, T)` (identity) and
`isSubType(T, Any)` hold, in any state and at any positive fuel; but
`isSubType(Never, T)` does not hold for every `T` — e.g. it is `false` for
`T = Number` in the fresh `makeTypes()` state. -/
theorem isSubType_refl_any_laws :
    ∀ (fuel : Nat) (st : CheckState) (t : TypeId),
      (isSubTypeF (fuel + 1) st t t).1 = true ∧
      (isSubTypeF (fuel + 1) st t anyId).1 = true ∧
      (isSubTypeF 10 baseState neverId numberId).1 = false := by
  intro fuel st t
  refine ⟨?_, ?_, ?_⟩
  · simp [isSubTypeF]
  · by_cases h : t = anyId
    · simp [isSubTypeF, h]
    · simp [isSubTypeF, h, neverId, anyId]
  · rfl

/-- `isSubType` never allocates: every function of the recursive nest
preserves the descriptor heap (it writes only resolutions and diagnostics). -/
theorem subtype_heap_eq (fuel : Nat) :
    (∀ st a b, (isSubTypeF fuel st a b).2.heap = st.heap) ∧
    (∀ st a b, (isSubTypeSuper fuel st a b).2.heap = st.heap) ∧
    (∀ st a b, (isSubTypeOptF fuel st a b).2.heap = st.heap) ∧
    (∀ st as_ bs, (isSubTypeArgsF fuel st as_ bs).2.heap = st.heap) ∧
    (∀ st as_ bs, (isSubTypePairsF fuel st as_ bs).2.heap = st.heap) ∧
    (∀ st t r, (structuralPairsF fuel st t r).2.heap = st.heap) ∧
    (∀ st i a b, (resolveGenericArgumentF fuel st i a b).2.heap = st.heap) := by
  induction fuel with
  | zero =>
    refine ⟨fun st a b => rfl, fun st a b => rfl, ?_, ?_, ?_, ?_, fun st i a b => rfl⟩
    · intro st a b; cases a <;> cases b <;> rfl
    · intro st as_ bs; cases as_ <;> cases bs <;> rfl
    · intro st as_ bs; cases as_ <;> cases bs <;> rfl
    · intro st t r; cases r <;> rfl
  | succ n ih =>
    obtain ⟨ihF, ihS, ihO, ihA, ihP, ihT, ihR⟩ := ih
    refine ⟨?_, ?_, ?_, ?_, ?_, ?_, ?_⟩
    · intro st a b
      simp only [isSubTypeF]
      repeat' split
      all_goals first | rfl | simp_all [ihF, ihS]
    · intro st a b
      simp only [isSubTypeSuper]
      repeat' split
      all_goals
        first
          | rfl
          | (simp only [errorT, errorAtT]; split <;> rfl)
          | simp_all [ihF, ihS, ihO, ihA, ihP, ihT, ihR, errorT, errorAtT]
    · intro st a b
      cases a <;> cases b <;> simp [isSubTypeOptF, ihF]
    · intro st as_ bs
      cases as_ with
      | nil => cases bs <;> rfl
      | cons a at_ =>
        cases bs with
        | nil => rfl
        | cons b bt =>
          simp only [isSubTypeArgsF]
          split <;> simp_all [ihO, ihA]
    · intro st as_ bs
      cases as_ with
      | nil => cases bs <;> rfl
      | cons a at_ =>
        cases bs with
        | nil => rfl
        | cons b bt =>
          simp only [isSubTypePairsF]
          split <;> simp_all [ihF, ihP]
    · intro st t r
      cases r with
      | nil => cases t <;> rfl
      | cons hd tl =>
        simp only [structuralPairsF]
        repeat' split
        all_goals first | rfl | simp_all [ihO, ihT]
    · intro st i a b
      simp only [resolveGenericArgumentF]
      repeat' split
      all_goals first | rfl | simp_all [ihF, ihR]

end Saffron

namespace Saffron

/-- A union on the left against an interface on the right fails the
superclass switch (the structural case admits only Simple and Interface
subclasses). -/
theorem union_not_super_interface (fuel : Nat) (st : CheckState)
    (u t l r : TypeId) (iS : Option TypeId)
    (iF iM : List (String × Option TypeId)) (iG : List TypeId)
    (hu : heapGet st.heap u = some (.union l r))
    (ht : heapGet st.heap t = some (.interface iS iF iM iG)) :
    (isSubTypeSuper fuel st u t).1 = false := by
  cases fuel with
  | zero => rfl
  | succ n => simp [isSubTypeSuper, hu, ht]

/-- A union on the left is not a subtype of an interface on the right; holds
in any state whose `Any` singleton is, as `makeTypes()` makes it, a
Simple. -/
theorem union_not_sub_interface (fuel : Nat) (st : CheckState)
    (u t l r : TypeId) (iS : Option TypeId)
    (iF iM : List (String × Option TypeId)) (iG : List TypeId)
    (aS : Option TypeId) (aF aM : List (String × Option TypeId)) (aG : List TypeId)
    (hu : heapGet st.heap u = some (.union l r))
    (ht : heapGet st.heap t = some (.interface iS iF iM iG))
    (hany : heapGet st.heap anyId = some (.simple aS aF aM aG)) :
    (isSubTypeF fuel st u t).1 = false := by
  cases fuel with
  | zero => rfl
  | succ n =>
    have hne : ¬u = t := by intro h; rw [h, ht] at hu; exact absurd hu (by simp)
    have hta : ¬t = anyId := by intro h; rw [h, hany] at ht; exact absurd ht (by simp)
    by_cases h2 : t = neverId
    · subst h2
      simp [isSubTypeF, hne]
    · simp only [isSubTypeF, if_neg hne, if_neg h2, if_neg hta, hu]
      exact union_not_super_interface n st u t l r iS iF iM iG hu ht

/-- The superclass-switch half of C10: a union subclass fails against every
superclass descriptor that is not a Union and not a GenericParameter. -/
theorem union_left_super_opaque (fuel : Nat) (st : CheckState)
    (u s l r : TypeId) (d : TypeDesc)
    (aS : Option TypeId) (aF aM : List (String × Option TypeId)) (aG : List TypeId)
    (hu : heapGet st.heap u = some (.union l r))
    (hs : heapGet st.heap s = some d)
    (hdu : ∀ a b, d ≠ .union a b)
    (hdg : ∀ x n, d ≠ .genericDef x n)
    (hany : heapGet st.heap anyId = some (.simple aS aF aM aG)) :
    (isSubTypeSuper fuel st u s).1 = false := by
  cases fuel with
  | zero => rfl
  | succ n =>
    cases d with
    | simple sT sf sm sg => simp [isSubTypeSuper, hu, hs]
    | functor fa fg fr => simp [isSubTypeSuper, hu, hs]
    | union a b => exact absurd rfl (hdu a b)
    | genericDef x nm => exact absurd rfl (hdg x nm)
    | interface iS iF iM iG => simp [isSubTypeSuper, hu, hs]
    | generic target gens =>
      match htar : heapGet st.heap target with
      | some (.interface tS tF tM tG) =>
        by_cases harr : gens.length = tG.length
        · have hrec : (isSubTypeF n { st with envs := bindResolutions tG gens st.envs }
              u target).1 = false :=
            union_not_sub_interface n _ u target l r tS tF tM tG aS aF aM aG
              (by simpa using hu) (by simpa using htar) (by simpa using hany)
          simp [isSubTypeSuper, hs, htar, harr, hrec]
        · simp [isSubTypeSuper, hs, htar, harr]
      | some (.simple tS tf tm tg) => simp [isSubTypeSuper, hu, hs, htar]
      | some (.functor ta tg tr) => simp [isSubTypeSuper, hu, hs, htar]
      | some (.union ta tb) => simp [isSubTypeSuper, hu, hs, htar]
      | some (.generic tt tg) => simp [isSubTypeSuper, hu, hs, htar]
      | some (.genericDef tx tn) => simp [isSubTypeSuper, hu, hs, htar]
      | none => simp [isSubTypeSuper, hu, hs, htar]

/-- C10: a Union on the left of `isSubType` is never decomposed into its
members.  For a union `U` and any right side `S` that is not `Any`, not
identical to `U`, and neither a Union nor a GenericParameter descriptor,
`isSubType(U, S)` is `false` — no rule inspects `U.left`/`U.right` from the
left, even when both members would be subtypes of `S`.  (`Any`'s heap slot
is a Simple, as `makeTypes()` creates it.) -/
theorem isSubType_union_left_opaque (fuel : Nat) (st : CheckState)
    (u s l r : TypeId) (d : TypeDesc)
    (aS : Option TypeId) (aF aM : List (String × Option TypeId)) (aG : List TypeId)
    (hu : heapGet st.heap u = some (.union l r))
    (hs : heapGet st.heap s = some d)
    (hdu : ∀ a b, d ≠ .union a b)
    (hdg : ∀ x n, d ≠ .genericDef x n)
    (hne : s ≠ u) (hna : s ≠ anyId)
    (hany : heapGet st.heap anyId = some (.simple aS aF aM aG)) :
    (isSubTypeF fuel st u s).1 = false := by
  cases fuel with
  | zero => rfl
  | succ n =>
    have h1 : ¬u = s := fun h => hne h.symm
    by_cases h2 : s = neverId
    · subst h2
      simp [isSubTypeF, h1]
    · simp only [isSubTypeF, if_neg h1, if_neg h2, if_neg hna, hu]
      exact union_left_super_opaque n st u s l r d aS aF aM aG hu hs hdu hdg hany

/-- Witness for `isSubType_union_left_opaque`: the claim's example — a union
of `Number` with `Number` is not a subtype of `Number`. -/
theorem isSubType_union_left_opaque_witness :
    (isSubTypeF 50
      { baseState with heap := baseHeap ++ [.union numberId numberId] }
      10 numberId).1 = false := by
  exact isSubType_union_left_opaque 50 _ 10 numberId numberId numberId
    (.simple none [] [] []) none [] [] []
    (by rfl) (by rfl) (by intro a b; simp) (by intro x n; simp)
    (by decide) (by decide) (by rfl)

end Saffron

namespace Saffron

/-- C2 counterexample: a non-Functor left side can be a subtype of a Functor
other than via `Any`/identity.  A GenericApplication whose `target` is the
functor itself is unwrapped by the subclass switch and succeeds: with heap
slot 10 a Functor and slot 11 a GenericApplication targeting 10,
`isSubType(11, 10)` is `true` although 11 is not a Functor, `11 ≠ 10`, and
10 is not `Any`. -/
theorem nonfunctor_sub_of_functor :
    (isSubTypeF 5
      { baseState with heap := baseHeap ++ [.functor [] [] (some nilId), .generic 10 []] }
      11 10).1 = true ∧
    heapGet (baseHeap ++ [.functor [] [] (some nilId), .generic 10 []]) 11 =
      some (.generic 10 []) ∧
    heapGet (baseHeap ++ [.functor [] [] (some nilId), .generic 10 []]) 10 =
      some (.functor [] [] (some nilId)) ∧
    (11 : TypeId) ≠ 10 ∧ (10 : TypeId) ≠ anyId := by
  refine ⟨by rfl, by rfl, by rfl, by decide, by decide⟩

/-- C2 (amended): Functor subtyping.  (a) For distinct Functors `F1 ≤ F2`
holds iff the arities agree, the parameters check covariantly pairwise
(left-to-right, threading any generic resolutions), and the return types
check covariantly in the resulting state.  (b) A non-Functor left side `S`
is a subtype of a Functor `F2` (with `S ≠ F2`) only through the left-side
unwrapping rules: `S` is a GenericApplication whose target is a subtype of
`F2`, or `S` is a GenericParameter whose current resolution is a subtype of
`F2`. -/
theorem isSubType_functor_rules :
    (∀ (fuel : Nat) (st : CheckState) (f1 f2 : TypeId)
       (a1 a2 : List (Option TypeId)) (g1 g2 : List TypeId)
       (r1 r2 : Option TypeId),
       heapGet st.heap f1 = some (.functor a1 g1 r1) →
       heapGet st.heap f2 = some (.functor a2 g2 r2) →
       f2 ≠ anyId → f2 ≠ neverId → f1 ≠ f2 →
       ((isSubTypeF (fuel + 2) st f1 f2).1 = true ↔
         a2.length = a1.length ∧
         (isSubTypeArgsF fuel st a1 a2).1 = true ∧
         (isSubTypeOptF fuel (isSubTypeArgsF fuel st a1 a2).2 r1 r2).1 = true)) ∧
    (∀ (fuel : Nat) (st : CheckState) (s f2 : TypeId) (d : TypeDesc)
       (a2 : List (Option TypeId)) (g2 : List TypeId) (r2 : Option TypeId),
       heapGet st.heap f2 = some (.functor a2 g2 r2) →
       heapGet st.heap s = some d →
       (∀ a g r, d ≠ .functor a g r) →
       s ≠ f2 → f2 ≠ anyId → f2 ≠ neverId →
       (isSubTypeF (fuel + 1) st s f2).1 = true →
       (∃ t gs, d = .generic t gs ∧ (isSubTypeF fuel st t f2).1 = true) ∨
       (∃ x n inner, d = .genericDef x n ∧
          findGenericResolution st.envs s = some inner ∧
          (isSubTypeF fuel st inner f2).1 = true)) := by
  constructor
  · intro fuel st f1 f2 a1 a2 g1 g2 r1 r2 h1 h2 hna hnn hne
    have hstep : isSubTypeF (fuel + 2) st f1 f2 = isSubTypeSuper (fuel + 1) st f1 f2 := by
      show isSubTypeF (Nat.succ (fuel + 1)) st f1 f2 = _
      simp [isSubTypeF, hne, hna, hnn, h1]
    rw [hstep]
    rcases hA : isSubTypeArgsF fuel st a1 a2 with ⟨ok, stA⟩
    by_cases hlen : a2.length = a1.length
    · cases ok with
      | true => simp [isSubTypeSuper, h1, h2, hlen, hA]
      | false => simp [isSubTypeSuper, h1, h2, hlen, hA]
    · simp [isSubTypeSuper, h1, h2, hlen, hA]
  · intro fuel st s f2 d a2 g2 r2 h2 hs hdf hne hna hnn htrue
    cases d with
    | functor fa fg fr => exact absurd rfl (hdf fa fg fr)
    | generic target gens =>
      left
      refine ⟨target, gens, rfl, ?_⟩
      by_contra hb
      simp only [Bool.not_eq_true] at hb
      rcases hT : isSubTypeF fuel st target f2 with ⟨bb, stT⟩
      have hbb : bb = false := by rw [hT] at hb; simpa using hb
      subst hbb
      have hheap : stT.heap = st.heap := by
        have hq := (subtype_heap_eq fuel).1 st target f2
        rw [hT] at hq; simpa using hq
      have hfalse : (isSubTypeF (fuel + 1) st s f2).1 = false := by
        have hstep : isSubTypeF (fuel + 1) st s f2 = isSubTypeSuper fuel stT s f2 := by
          show isSubTypeF (Nat.succ fuel) st s f2 = _
          simp [isSubTypeF, hne, hna, hnn, hs, hT]
        rw [hstep]
        cases fuel with
        | zero => rfl
        | succ m =>
          have h2T : heapGet stT.heap f2 = some (.functor a2 g2 r2) := by
            rw [hheap]; exact h2
          have hsT : heapGet stT.heap s = some (.generic target gens) := by
            rw [hheap]; exact hs
          simp [isSubTypeSuper, h2T, hsT]
      rw [hfalse] at htrue
      exact absurd htrue (by simp)
    | genericDef x nm =>
      right
      match hfind : findGenericResolution st.envs s with
      | some inner =>
        refine ⟨x, nm, inner, rfl, rfl, ?_⟩
        by_contra hb
        simp only [Bool.not_eq_true] at hb
        have hstep : isSubTypeF (fuel + 1) st s f2 = isSubTypeF fuel st inner f2 := by
          show isSubTypeF (Nat.succ fuel) st s f2 = _
          simp [isSubTypeF, hne, hna, hnn, hs, hfind]
        rw [hstep, hb] at htrue
        exact absurd htrue (by simp)
      | none =>
        exfalso
        have hstep : isSubTypeF (fuel + 1) st s f2 = isSubTypeSuper fuel st s f2 := by
          show isSubTypeF (Nat.succ fuel) st s f2 = _
          simp [isSubTypeF, hne, hna, hnn, hs, hfind]
        rw [hstep] at htrue
        cases fuel with
        | zero => exact absurd htrue (by simp [isSubTypeSuper])
        | succ m =>
          rw [show (isSubTypeSuper (m + 1) st s f2).1 = false by
            simp [isSubTypeSuper, h2, hs]] at htrue
          exact absurd htrue (by simp)
    | simple sT sf sm sg =>
      exfalso
      have hstep : isSubTypeF (fuel + 1) st s f2 = isSubTypeSuper fuel st s f2 := by
        show isSubTypeF (Nat.succ fuel) st s f2 = _
        simp [isSubTypeF, hne, hna, hnn, hs]
      rw [hstep] at htrue
      cases fuel with
      | zero => exact absurd htrue (by simp [isSubTypeSuper])
      | succ m =>
        rw [show (isSubTypeSuper (m + 1) st s f2).1 = false by
          simp [isSubTypeSuper, h2, hs]] at htrue
        exact absurd htrue (by simp)
    | union a b =>
      exfalso
      have hstep : isSubTypeF (fuel + 1) st s f2 = isSubTypeSuper fuel st s f2 := by
        show isSubTypeF (Nat.succ fuel) st s f2 = _
        simp [isSubTypeF, hne, hna, hnn, hs]
      rw [hstep] at htrue
      cases fuel with
      | zero => exact absurd htrue (by simp [isSubTypeSuper])
      | succ m =>
        rw [show (isSubTypeSuper (m + 1) st s f2).1 = false by
          simp [isSubTypeSuper, h2, hs]] at htrue
        exact absurd htrue (by simp)
    | interface iS iF iM iG =>
      exfalso
      have hstep : isSubTypeF (fuel + 1) st s f2 = isSubTypeSuper fuel st s f2 := by
        show isSubTypeF (Nat.succ fuel) st s f2 = _
        simp [isSubTypeF, hne, hna, hnn, hs]
      rw [hstep] at htrue
      cases fuel with
      | zero => exact absurd htrue (by simp [isSubTypeSuper])
      | succ m =>
        rw [show (isSubTypeSuper (m + 1) st s f2).1 = false by
          simp [isSubTypeSuper, h2, hs]] at htrue
        exact absurd htrue (by simp)

end Saffron

namespace Saffron

/-- Witness for `isSubType_functor_rules`: (a) `(Number) => Number` is a
subtype of `(Number) => Any` (same arity, covariant parameter and return
checks); (b) instantiated at a GenericApplication-over-functor left side,
the characterization yields the unwrapping disjunct. -/
theorem isSubType_functor_rules_witness :
    ((isSubTypeF 9
        { baseState with
            heap := baseHeap ++
              [.functor [some numberId] [] (some numberId),
               .functor [some numberId] [] (some anyId)] }
        10 11).1 = true) ∧
    ((∃ t gs, (TypeDesc.generic 12 ([] : List TypeId) = TypeDesc.generic t gs) ∧
        (isSubTypeF 7
          { baseState with
              heap := baseHeap ++
                [.functor [] [] (some nilId), .functor [] [] (some nilId),
                 .functor [] [] (some nilId), .generic 12 []] }
          t 12).1 = true) ∨
      (∃ x n inner, (TypeDesc.generic 12 ([] : List TypeId) = TypeDesc.genericDef x n) ∧
        findGenericResolution
          ({ baseState with
              heap := baseHeap ++
                [.functor [] [] (some nilId), .functor [] [] (some nilId),
                 .functor [] [] (some nilId), .generic 12 []] } : CheckState).envs 13 =
            some inner ∧
        (isSubTypeF 7
          { baseState with
              heap := baseHeap ++
                [.functor [] [] (some nilId), .functor [] [] (some nilId),
                 .functor [] [] (some nilId), .generic 12 []] }
          inner 12).1 = true)) := by
  constructor
  · have h := isSubType_functor_rules.1 7
      { baseState with
          heap := baseHeap ++
            [.functor [some numberId] [] (some numberId),
             .functor [some numberId] [] (some anyId)] }
      10 11 [some numberId] [some numberId] [] [] (some numberId) (some anyId)
      (by rfl) (by rfl) (by decide) (by decide) (by decide)
    exact h.mpr ⟨by rfl, by rfl, by rfl⟩
  · exact isSubType_functor_rules.2 7
      { baseState with
          heap := baseHeap ++
            [.functor [] [] (some nilId), .functor [] [] (some nilId),
             .functor [] [] (some nilId), .generic 12 []] }
      13 12 (.generic 12 []) [] [] (some nilId)
      (by rfl) (by rfl) (by intro a g r; simp) (by decide) (by decide) (by decide)
      (by rfl)

end Saffron

namespace Saffron

/-- C3 counterexample: after checking `fun id<T>(x: T): T { return x; }`,
the call `id(3)` is assigned the functor's declared return — the
GenericTypeDefinition `T` itself (heap id 10) — not `Number`. -/
theorem id_call_type_is_generic_not_number :
    (evalNode 30 declState (some idCallNode)).1 = some 10 ∧
    heapGet declState.heap 10 = some (.genericDef none "T") ∧
    (some 10 : Option TypeId) ≠ some numberId := by
  refine ⟨by rfl, by rfl, by decide⟩

/-- C3 (amended): for `fun id<T>(x: T): T`, the call `id(3)` type-checks
(no diagnostic; the argument check binds `T` to `Number` inside the call's
temporary scope), and the type assigned to the call is the functor's
declared return — the GenericParameter `T` itself, whose resolution scope
is discarded when the call finishes; consequently using the result where a
`String` parameter is required fails with *"Type mismatch"*. -/
theorem generic_call_resolution :
    ((evalNode 30 declState (some idCallNode)).1 = some 10 ∧
     heapGet declState.heap 10 = some (.genericDef none "T") ∧
     functorGetRet 11 declState = some 10 ∧
     resolveLocal declState.envs "id" = some 11 ∧
     declState.diags = [] ∧
     (evalNode 30 declState (some idCallNode)).2.diags = [] ∧
     findGenericResolution (evalNode 30 declState (some idCallNode)).2.envs 10 = none) ∧
    ((evalNode 30 declState (some gCallNode)).1 = none ∧
     (evalNode 30 declState (some gCallNode)).2.diags = ["Type mismatch"]) := by
  exact ⟨⟨rfl, rfl, rfl, rfl, rfl, rfl, rfl⟩, rfl, rfl⟩

/-- C9 counterexample: a Lambda's unannotated parameter is *not* defaulted
to `Any` and *not* bound in the lambda's scope: the built functor records a
nil argument slot, and the body's reference to the parameter reports
*"Undefined variable"*. -/
theorem lambda_param_not_any_not_bound :
    functorGetArgs 10 (evalNode 6 baseState (some lambdaNode)).2 = [none] ∧
    ([none] : List (Option TypeId)) ≠ [some anyId] ∧
    (evalNode 6 baseState (some lambdaNode)).2.diags = ["Undefined variable"] := by
  refine ⟨by rfl, by decide, by rfl⟩

set_option maxHeartbeats 3200000 in
/-- C9 (amended): for a Function node, an unannotated parameter defaults to
`Any` and is bound under its name in the function's own scope (the body's
reference to it checks cleanly), the return type defaults to `Nil` when no
annotation or Return fixes one, and the enclosing scope gains
name ↦ Functor; for a Lambda node, an unannotated parameter is recorded as
a nil slot and not bound (its use reports *"Undefined variable"*), the
return default is the same, and no name is bound (lambdas are anonymous). -/
theorem function_lambda_param_scoping :
    (∀ x f : String,
      (evalNode 6 baseState (some (simpleFunNode x f))).1 = some 10 ∧
      heapGet (evalNode 6 baseState (some (simpleFunNode x f))).2.heap 10 =
        some (.functor [some anyId] [] (some nilId)) ∧
      resolveLocal (evalNode 6 baseState (some (simpleFunNode x f))).2.envs f =
        some 10 ∧
      (evalNode 6 baseState (some (simpleFunNode x f))).2.diags = []) ∧
    ((evalNode 6 baseState (some lambdaNode)).1 = some 10 ∧
     heapGet (evalNode 6 baseState (some lambdaNode)).2.heap 10 =
       some (.functor [none] [] (some nilId)) ∧
     (evalNode 6 baseState (some lambdaNode)).2.diags = ["Undefined variable"] ∧
     (evalNode 6 baseState (some lambdaNode)).2.envs = baseState.envs) := by
  constructor
  · intro x f
    refine ⟨?_, ?_, ?_, ?_⟩ <;>
      simp [evalNode, evalStmts, evalGenerics, evalFuncParams, simpleFunNode, idTok,
        mkTok, baseState, baseHeap, emptyFrame, pushEnv, popEnv, allocType, heapGet,
        heapSet, functorAppendArg, functorSetRet, functorSetGenerics, functorGetRet,
        defineLocalCur, getVariableTypeF, resolveLocal, tableGet, tableSet, anyId,
        nilId, getTypeOf]
  · exact ⟨rfl, rfl, rfl, rfl⟩

end Saffron

namespace Saffron

set_option maxHeartbeats 2000000 in
/-- C4: the claimed pipe rewrite `x | f(a1, …, an) = f(x, a1, …, an)` does
not hold for n ≥ 2: after appending a slot, the copy loop walks FORWARD
(`exprs[i+1] = exprs[i]` for i = 0 … count−2), so every shifted slot
receives the original first argument; `x | f(y, z)` parses to a Call with
arguments `[x, y, y]` (`z` is lost).  The one-argument case `x | f(y)`
does produce `[x, y]`, and a non-Call right side reports the diagnostic —
which in the code ends with an exclamation mark:
"Expected functional call after pipe operator!". -/
theorem pipeCall_forward_copy_duplicates_first_arg :
    (parseASTF 30 pipe2Toks).1 =
      some [some (.exprStmt 1 (some (.call (mkTok .leftParen "(")
        (some (.variableN (idTok "f")))
        [.variableN (idTok "x"), .variableN (idTok "y"), .variableN (idTok "y")])))] ∧
    pipeShift (Node.variableN (idTok "x"))
        [Node.variableN (idTok "y"), Node.variableN (idTok "z")] =
      [Node.variableN (idTok "x"), Node.variableN (idTok "y"),
       Node.variableN (idTok "y")] ∧
    (parseASTF 30 pipe1Toks).1 =
      some [some (.exprStmt 1 (some (.call (mkTok .leftParen "(")
        (some (.variableN (idTok "f")))
        [.variableN (idTok "x"), .variableN (idTok "y")])))] ∧
    (parseASTF 30 pipeBadToks).1 = none ∧
    (parseASTF 30 pipeBadToks).2.diags =
      ["Expected functional call after pipe operator!"] :=
  ⟨rfl, rfl, rfl, rfl, rfl⟩

set_option maxHeartbeats 2000000 in
/-- C7: `synchronize()` is dead code — `declaration()`'s trailing
`if (parser.panicMode) synchronize();` sits after an if/else-if chain in
which every branch returns — so panic mode is never cleared during a parse
and only the first diagnostic is ever reported.  Parsing `var ; var ;`
(errors in two separate statements) yields exactly one diagnostic, and the
parser is still in panic mode at EOF. -/
theorem declaration_dead_synchronize_one_diag :
    (parseASTF 30 varVarToks).2.diags = ["Expect variable name."] ∧
    (parseASTF 30 varVarToks).2.panicMode = true ∧
    (parseASTF 30 varVarToks).1 = none :=
  ⟨rfl, rfl, rfl⟩

/-- `errorAt` preserves the invariant: it either suppresses (panic mode) or
sets the flag and appends a diagnostic together. -/
theorem PInv_errorAtP {m : String} {st : PState} (h : PInv st) :
    PInv (errorAtP m st) := by
  unfold errorAtP
  split
  · exact h
  · simp [PInv]

/-- `error` preserves the invariant. -/
theorem PInv_errorP {m : String} {st : PState} (h : PInv st) :
    PInv (errorP m st) := PInv_errorAtP h

/-- `errorAtCurrent` preserves the invariant. -/
theorem PInv_errorAtCurrentP {m : String} {st : PState} (h : PInv st) :
    PInv (errorAtCurrentP m st) := PInv_errorAtP h

/-- The scan loop of `advance` preserves the invariant. -/
theorem PInv_advanceLoop (l : List Token) :
    ∀ {st : PState}, PInv st → PInv (advanceLoop l st) := by
  induction l with
  | nil => intro st h; exact h
  | cons t rest ih =>
    intro st h
    simp only [advanceLoop]
    split
    · exact ih (PInv_errorAtCurrentP h)
    · exact h

/-- `advance` preserves the invariant. -/
theorem PInv_advanceP {st : PState} (h : PInv st) : PInv (advanceP st) :=
  PInv_advanceLoop _ h

/-- `consume` preserves the invariant. -/
theorem PInv_consumeP {ty : TokenType} {m : String} {st : PState}
    (h : PInv st) : PInv (consumeP ty m st) := by
  unfold consumeP
  split
  · exact PInv_advanceP h
  · exact PInv_errorAtCurrentP h

/-- `match` preserves the invariant. -/
theorem PInv_matchP2 {ty : TokenType} {st : PState} (h : PInv st) :
    PInv (matchP ty st).2 := by
  unfold matchP
  split
  · exact PInv_advanceP h
  · exact h

/-- `parseVariable` preserves the invariant. -/
theorem PInv_parseVariableF2 {m : String} {st : PState} (h : PInv st) :
    PInv (parseVariableF m st).2 := by
  simp only [parseVariableF]
  exact PInv_consumeP h

/-- The semicolon-skipping loop preserves the invariant. -/
theorem PInv_skipSemisF (f : Nat) :
    ∀ {st : PState}, PInv st → PInv (skipSemisF f st) := by
  induction f with
  | zero => intro st h; exact h
  | succ n ih =>
    intro st h
    rw [skipSemisF]
    split
    · exact ih (PInv_matchP2 h)
    · exact PInv_matchP2 h

end Saffron
namespace Saffron

/-- Fuel-zero equation of `parsePrecedenceF` (also forces equation-lemma
generation while the definition is reducible). -/
theorem parsePrecedenceF_eq0 (st : PState) (p : Nat) : parsePrecedenceF 0 st p = (none, st) := by
  rw [parsePrecedenceF]

/-- Fuel-zero equation of `infixLoopF` (also forces equation-lemma
generation while the definition is reducible). -/
theorem infixLoopF_eq0 (st : PState) (p : Nat) (res : Option Node) (c : Bool) : infixLoopF 0 st p res c = (res, st) := by
  rw [infixLoopF]

/-- Fuel-zero equation of `runPrefixF` (also forces equation-lemma
generation while the definition is reducible). -/
theorem runPrefixF_eq0 (st : PState) (pf : PrefixFn) (c : Bool) : runPrefixF 0 st pf c = (none, st) := by
  rw [runPrefixF]

/-- Fuel-zero equation of `runInfixF` (also forces equation-lemma
generation while the definition is reducible). -/
theorem runInfixF_eq0 (st : PState) (inf0 : InfixFn) (l : Option Node) (c : Bool) : runInfixF 0 st inf0 l c = (none, st) := by
  rw [runInfixF]

/-- Fuel-zero equation of `variableF` (also forces equation-lemma
generation while the definition is reducible). -/
theorem variableF_eq0 (st : PState) (c : Bool) : variableF 0 st c = (none, st) := by
  rw [variableF]

/-- Fuel-zero equation of `groupingF` (also forces equation-lemma
generation while the definition is reducible). -/
theorem groupingF_eq0 (st : PState) : groupingF 0 st = (none, st) := by
  rw [groupingF]

/-- Fuel-zero equation of `unaryF` (also forces equation-lemma
generation while the definition is reducible). -/
theorem unaryF_eq0 (st : PState) : unaryF 0 st = (none, st) := by
  rw [unaryF]

/-- Fuel-zero equation of `listF` (also forces equation-lemma
generation while the definition is reducible). -/
theorem listF_eq0 (st : PState) : listF 0 st = (none, st) := by
  rw [listF]

/-- Fuel-zero equation of `listItemsF` (also forces equation-lemma
generation while the definition is reducible). -/
theorem listItemsF_eq0 (st : PState) (a : List Node) : listItemsF 0 st a = (a, st) := by
  rw [listItemsF]

/-- Fuel-zero equation of `mapF` (also forces equation-lemma
generation while the definition is reducible). -/
theorem mapF_eq0 (st : PState) : mapF 0 st = (none, st) := by
  rw [mapF]

/-- Fuel-zero equation of `mapItemsPF` (also forces equation-lemma
generation while the definition is reducible). -/
theorem mapItemsPF_eq0 (st : PState) (k v : List Node) : mapItemsPF 0 st k v = (k, v, st) := by
  rw [mapItemsPF]

/-- Fuel-zero equation of `binaryF` (also forces equation-lemma
generation while the definition is reducible). -/
theorem binaryF_eq0 (st : PState) (l : Option Node) : binaryF 0 st l = (none, st) := by
  rw [binaryF]

/-- Fuel-zero equation of `andF` (also forces equation-lemma
generation while the definition is reducible). -/
theorem andF_eq0 (st : PState) (l : Option Node) : andF 0 st l = (none, st) := by
  rw [andF]

/-- Fuel-zero equation of `orF` (also forces equation-lemma
generation while the definition is reducible). -/
theorem orF_eq0 (st : PState) (l : Option Node) : orF 0 st l = (none, st) := by
  rw [orF]

/-- Fuel-zero equation of `argumentListF` (also forces equation-lemma
generation while the definition is reducible). -/
theorem argumentListF_eq0 (st : PState) : argumentListF 0 st = ([], st) := by
  rw [argumentListF]

/-- Fuel-zero equation of `argItemsF` (also forces equation-lemma
generation while the definition is reducible). -/
theorem argItemsF_eq0 (st : PState) (a : List Node) (n0 : Nat) : argItemsF 0 st a n0 = (a, st) := by
  rw [argItemsF]

/-- Fuel-zero equation of `callF` (also forces equation-lemma
generation while the definition is reducible). -/
theorem callF_eq0 (st : PState) (l : Option Node) : callF 0 st l = (none, st) := by
  rw [callF]

/-- Fuel-zero equation of `getItemF` (also forces equation-lemma
generation while the definition is reducible). -/
theorem getItemF_eq0 (st : PState) (l : Option Node) : getItemF 0 st l = (none, st) := by
  rw [getItemF]

/-- Fuel-zero equation of `pipeCallF` (also forces equation-lemma
generation while the definition is reducible). -/
theorem pipeCallF_eq0 (st : PState) (l : Option Node) : pipeCallF 0 st l = (none, st) := by
  rw [pipeCallF]

/-- Fuel-zero equation of `dotF` (also forces equation-lemma
generation while the definition is reducible). -/
theorem dotF_eq0 (st : PState) (l : Option Node) : dotF 0 st l = (none, st) := by
  rw [dotF]

/-- Fuel-zero equation of `superF` (also forces equation-lemma
generation while the definition is reducible). -/
theorem superF_eq0 (st : PState) : superF 0 st = (none, st) := by
  rw [superF]

/-- Fuel-zero equation of `yieldExprF` (also forces equation-lemma
generation while the definition is reducible). -/
theorem yieldExprF_eq0 (st : PState) : yieldExprF 0 st = (none, st) := by
  rw [yieldExprF]

/-- Fuel-zero equation of `ifExprF` (also forces equation-lemma
generation while the definition is reducible). -/
theorem ifExprF_eq0 (st : PState) : ifExprF 0 st = (none, st) := by
  rw [ifExprF]

/-- Fuel-zero equation of `expressionF` (also forces equation-lemma
generation while the definition is reducible). -/
theorem expressionF_eq0 (st : PState) : expressionF 0 st = (none, st) := by
  rw [expressionF]

/-- Fuel-zero equation of `parseParamsF` (also forces equation-lemma
generation while the definition is reducible). -/
theorem parseParamsF_eq0 (st : PState) : parseParamsF 0 st = (([], []), st) := by
  rw [parseParamsF]

/-- Fuel-zero equation of `paramsLoopF` (also forces equation-lemma
generation while the definition is reducible). -/
theorem paramsLoopF_eq0 (st : PState) (a : List Node) (b : List (Option Node)) (n0 : Nat) : paramsLoopF 0 st a b n0 = ((a, b), st) := by
  rw [paramsLoopF]

/-- Fuel-zero equation of `anonFunctionF` (also forces equation-lemma
generation while the definition is reducible). -/
theorem anonFunctionF_eq0 (st : PState) : anonFunctionF 0 st = (none, st) := by
  rw [anonFunctionF]

/-- Fuel-zero equation of `exprStatementF` (also forces equation-lemma
generation while the definition is reducible). -/
theorem exprStatementF_eq0 (st : PState) : exprStatementF 0 st = (none, st) := by
  rw [exprStatementF]

/-- Fuel-zero equation of `blockF` (also forces equation-lemma
generation while the definition is reducible). -/
theorem blockF_eq0 (st : PState) : blockF 0 st = (none, st) := by
  rw [blockF]

/-- Fuel-zero equation of `blockStmtsF` (also forces equation-lemma
generation while the definition is reducible). -/
theorem blockStmtsF_eq0 (st : PState) (a : List Node) : blockStmtsF 0 st a = (a, st) := by
  rw [blockStmtsF]

/-- Fuel-zero equation of `functionF` (also forces equation-lemma
generation while the definition is reducible). -/
theorem functionF_eq0 (st : PState) (t : Token) (ft : FunctionType) : functionF 0 st t ft = (none, st) := by
  rw [functionF]

/-- Fuel-zero equation of `whileStatementF` (also forces equation-lemma
generation while the definition is reducible). -/
theorem whileStatementF_eq0 (st : PState) : whileStatementF 0 st = (none, st) := by
  rw [whileStatementF]

/-- Fuel-zero equation of `genericArgDefinitionsF` (also forces equation-lemma
generation while the definition is reducible). -/
theorem genericArgDefinitionsF_eq0 (st : PState) : genericArgDefinitionsF 0 st = ([], st) := by
  rw [genericArgDefinitionsF]

/-- Fuel-zero equation of `genericDefsLoopF` (also forces equation-lemma
generation while the definition is reducible). -/
theorem genericDefsLoopF_eq0 (st : PState) (a : List Node) : genericDefsLoopF 0 st a = (a, st) := by
  rw [genericDefsLoopF]

/-- Fuel-zero equation of `functionTypeAnnotationF` (also forces equation-lemma
generation while the definition is reducible). -/
theorem functionTypeAnnotationF_eq0 (st : PState) : functionTypeAnnotationF 0 st = (none, st) := by
  rw [functionTypeAnnotationF]

/-- Fuel-zero equation of `ftaArgsF` (also forces equation-lemma
generation while the definition is reducible). -/
theorem ftaArgsF_eq0 (st : PState) (a : List (Option Node)) : ftaArgsF 0 st a = (a, st) := by
  rw [ftaArgsF]

/-- Fuel-zero equation of `simpleTypeAnnotationF` (also forces equation-lemma
generation while the definition is reducible). -/
theorem simpleTypeAnnotationF_eq0 (st : PState) : simpleTypeAnnotationF 0 st = (none, st) := by
  rw [simpleTypeAnnotationF]

/-- Fuel-zero equation of `simpleGenericsF` (also forces equation-lemma
generation while the definition is reducible). -/
theorem simpleGenericsF_eq0 (st : PState) (a : List Node) : simpleGenericsF 0 st a = (a, st) := by
  rw [simpleGenericsF]

/-- Fuel-zero equation of `typeAnnotationF` (also forces equation-lemma
generation while the definition is reducible). -/
theorem typeAnnotationF_eq0 (st : PState) : typeAnnotationF 0 st = (none, st) := by
  rw [typeAnnotationF]

/-- Fuel-zero equation of `unionTailF` (also forces equation-lemma
generation while the definition is reducible). -/
theorem unionTailF_eq0 (st : PState) (l : Option Node) : unionTailF 0 st l = (l, st) := by
  rw [unionTailF]

/-- Fuel-zero equation of `fieldDeclarationF` (also forces equation-lemma
generation while the definition is reducible). -/
theorem fieldDeclarationF_eq0 (st : PState) (a : AssignmentType) : fieldDeclarationF 0 st a = (none, st) := by
  rw [fieldDeclarationF]

/-- Fuel-zero equation of `varDeclarationF` (also forces equation-lemma
generation while the definition is reducible). -/
theorem varDeclarationF_eq0 (st : PState) (a : AssignmentType) : varDeclarationF 0 st a = (none, st) := by
  rw [varDeclarationF]

/-- Fuel-zero equation of `typeDeclarationF` (also forces equation-lemma
generation while the definition is reducible). -/
theorem typeDeclarationF_eq0 (st : PState) : typeDeclarationF 0 st = (none, st) := by
  rw [typeDeclarationF]

/-- Fuel-zero equation of `forStatementF` (also forces equation-lemma
generation while the definition is reducible). -/
theorem forStatementF_eq0 (st : PState) : forStatementF 0 st = (none, st) := by
  rw [forStatementF]

/-- Fuel-zero equation of `importStatementF` (also forces equation-lemma
generation while the definition is reducible). -/
theorem importStatementF_eq0 (st : PState) : importStatementF 0 st = (none, st) := by
  rw [importStatementF]

/-- Fuel-zero equation of `returnStatementF` (also forces equation-lemma
generation while the definition is reducible). -/
theorem returnStatementF_eq0 (st : PState) : returnStatementF 0 st = (none, st) := by
  rw [returnStatementF]

/-- Fuel-zero equation of `statementF` (also forces equation-lemma
generation while the definition is reducible). -/
theorem statementF_eq0 (st : PState) : statementF 0 st = (none, st) := by
  rw [statementF]

/-- Fuel-zero equation of `methodF` (also forces equation-lemma
generation while the definition is reducible). -/
theorem methodF_eq0 (st : PState) : methodF 0 st = (none, st) := by
  rw [methodF]

/-- Fuel-zero equation of `classDeclarationF` (also forces equation-lemma
generation while the definition is reducible). -/
theorem classDeclarationF_eq0 (st : PState) : classDeclarationF 0 st = (none, st) := by
  rw [classDeclarationF]

/-- Fuel-zero equation of `classBodyF` (also forces equation-lemma
generation while the definition is reducible). -/
theorem classBodyF_eq0 (st : PState) (a : List Node) : classBodyF 0 st a = (a, st) := by
  rw [classBodyF]

/-- Fuel-zero equation of `methodSignatureF` (also forces equation-lemma
generation while the definition is reducible). -/
theorem methodSignatureF_eq0 (st : PState) : methodSignatureF 0 st = (none, st) := by
  rw [methodSignatureF]

/-- Fuel-zero equation of `interfaceDeclarationF` (also forces equation-lemma
generation while the definition is reducible). -/
theorem interfaceDeclarationF_eq0 (st : PState) : interfaceDeclarationF 0 st = (none, st) := by
  rw [interfaceDeclarationF]

/-- Fuel-zero equation of `interfaceBodyF` (also forces equation-lemma
generation while the definition is reducible). -/
theorem interfaceBodyF_eq0 (st : PState) (a : List Node) : interfaceBodyF 0 st a = (a, st) := by
  rw [interfaceBodyF]

/-- Fuel-zero equation of `funDeclarationF` (also forces equation-lemma
generation while the definition is reducible). -/
theorem funDeclarationF_eq0 (st : PState) : funDeclarationF 0 st = (none, st) := by
  rw [funDeclarationF]

/-- Fuel-zero equation of `declarationF` (also forces equation-lemma
generation while the definition is reducible). -/
theorem declarationF_eq0 (st : PState) : declarationF 0 st = (none, st) := by
  rw [declarationF]

/-- Fuel-zero equation of `parseASTLoopF` (also forces equation-lemma
generation while the definition is reducible). -/
theorem parseASTLoopF_eq0 (st : PState) (a : List (Option Node)) : parseASTLoopF 0 st a = (a, st) := by
  rw [parseASTLoopF]

attribute [irreducible] errorAtP errorP errorAtCurrentP advanceLoop advanceP
  consumeP checkP matchP parseVariableF skipSemisF getRule
  parsePrecedenceF infixLoopF runPrefixF runInfixF variableF groupingF unaryF
  listF listItemsF mapF mapItemsPF binaryF andF orF argumentListF argItemsF
  callF getItemF pipeCallF dotF superF yieldExprF ifExprF expressionF
  parseParamsF paramsLoopF anonFunctionF exprStatementF blockF blockStmtsF
  functionF whileStatementF genericArgDefinitionsF genericDefsLoopF
  functionTypeAnnotationF ftaArgsF simpleTypeAnnotationF simpleGenericsF
  typeAnnotationF unionTailF fieldDeclarationF varDeclarationF
  typeDeclarationF forStatementF importStatementF returnStatementF statementF
  methodF classDeclarationF classBodyF methodSignatureF interfaceDeclarationF
  interfaceBodyF funDeclarationF declarationF parseASTLoopF

set_option maxHeartbeats 10000000 in
/-- Every parser function preserves the flag-diagnostic invariant: the
only writer of either field is `errorAt`, which sets them together. -/
theorem parserPInvAll : ∀ fuel : Nat,
    (∀ st p, PInv st → PInv (parsePrecedenceF fuel st p).2) ∧
    (∀ st p res c, PInv st → PInv (infixLoopF fuel st p res c).2) ∧
    (∀ st pf c, PInv st → PInv (runPrefixF fuel st pf c).2) ∧
    (∀ st inf0 l c, PInv st → PInv (runInfixF fuel st inf0 l c).2) ∧
    (∀ st c, PInv st → PInv (variableF fuel st c).2) ∧
    (∀ st, PInv st → PInv (groupingF fuel st).2) ∧
    (∀ st, PInv st → PInv (unaryF fuel st).2) ∧
    (∀ st, PInv st → PInv (listF fuel st).2) ∧
    (∀ st a, PInv st → PInv (listItemsF fuel st a).2) ∧
    (∀ st, PInv st → PInv (mapF fuel st).2) ∧
    (∀ st k v, PInv st → PInv (mapItemsPF fuel st k v).2.2) ∧
    (∀ st l, PInv st → PInv (binaryF fuel st l).2) ∧
    (∀ st l, PInv st → PInv (andF fuel st l).2) ∧
    (∀ st l, PInv st → PInv (orF fuel st l).2) ∧
    (∀ st, PInv st → PInv (argumentListF fuel st).2) ∧
    (∀ st a n0, PInv st → PInv (argItemsF fuel st a n0).2) ∧
    (∀ st l, PInv st → PInv (callF fuel st l).2) ∧
    (∀ st l, PInv st → PInv (getItemF fuel st l).2) ∧
    (∀ st l, PInv st → PInv (pipeCallF fuel st l).2) ∧
    (∀ st l, PInv st → PInv (dotF fuel st l).2) ∧
    (∀ st, PInv st → PInv (superF fuel st).2) ∧
    (∀ st, PInv st → PInv (yieldExprF fuel st).2) ∧
    (∀ st, PInv st → PInv (ifExprF fuel st).2) ∧
    (∀ st, PInv st → PInv (expressionF fuel st).2) ∧
    (∀ st, PInv st → PInv (parseParamsF fuel st).2) ∧
    (∀ st a b n0, PInv st → PInv (paramsLoopF fuel st a b n0).2) ∧
    (∀ st, PInv st → PInv (anonFunctionF fuel st).2) ∧
    (∀ st, PInv st → PInv (exprStatementF fuel st).2) ∧
    (∀ st, PInv st → PInv (blockF fuel st).2) ∧
    (∀ st a, PInv st → PInv (blockStmtsF fuel st a).2) ∧
    (∀ st t ft, PInv st → PInv (functionF fuel st t ft).2) ∧
    (∀ st, PInv st → PInv (whileStatementF fuel st).2) ∧
    (∀ st, PInv st → PInv (genericArgDefinitionsF fuel st).2) ∧
    (∀ st a, PInv st → PInv (genericDefsLoopF fuel st a).2) ∧
    (∀ st, PInv st → PInv (functionTypeAnnotationF fuel st).2) ∧
    (∀ st a, PInv st → PInv (ftaArgsF fuel st a).2) ∧
    (∀ st, PInv st → PInv (simpleTypeAnnotationF fuel st).2) ∧
    (∀ st a, PInv st → PInv (simpleGenericsF fuel st a).2) ∧
    (∀ st, PInv st → PInv (typeAnnotationF fuel st).2) ∧
    (∀ st l, PInv st → PInv (unionTailF fuel st l).2) ∧
    (∀ st a, PInv st → PInv (fieldDeclarationF fuel st a).2) ∧
    (∀ st a, PInv st → PInv (varDeclarationF fuel st a).2) ∧
    (∀ st, PInv st → PInv (typeDeclarationF fuel st).2) ∧
    (∀ st, PInv st → PInv (forStatementF fuel st).2) ∧
    (∀ st, PInv st → PInv (importStatementF fuel st).2) ∧
    (∀ st, PInv st → PInv (returnStatementF fuel st).2) ∧
    (∀ st, PInv st → PInv (statementF fuel st).2) ∧
    (∀ st, PInv st → PInv (methodF fuel st).2) ∧
    (∀ st, PInv st → PInv (classDeclarationF fuel st).2) ∧
    (∀ st a, PInv st → PInv (classBodyF fuel st a).2) ∧
    (∀ st, PInv st → PInv (methodSignatureF fuel st).2) ∧
    (∀ st, PInv st → PInv (interfaceDeclarationF fuel st).2) ∧
    (∀ st a, PInv st → PInv (interfaceBodyF fuel st a).2) ∧
    (∀ st, PInv st → PInv (funDeclarationF fuel st).2) ∧
    (∀ st, PInv st → PInv (declarationF fuel st).2) ∧
    (∀ st a, PInv st → PInv (parseASTLoopF fuel st a).2) := by
  intro fuel
  induction fuel with
  | zero =>
    refine ⟨?_, ?_, ?_, ?_, ?_, ?_, ?_, ?_, ?_, ?_, ?_, ?_, ?_, ?_, ?_, ?_, ?_, ?_, ?_, ?_, ?_, ?_, ?_, ?_, ?_, ?_, ?_, ?_, ?_, ?_, ?_, ?_, ?_, ?_, ?_, ?_, ?_, ?_, ?_, ?_, ?_, ?_, ?_, ?_, ?_, ?_, ?_, ?_, ?_, ?_, ?_, ?_, ?_, ?_, ?_, ?_⟩ <;>
      (intros
       rename_i h
       simp only [parsePrecedenceF_eq0, infixLoopF_eq0, runPrefixF_eq0, runInfixF_eq0, variableF_eq0, groupingF_eq0, unaryF_eq0, listF_eq0, listItemsF_eq0, mapF_eq0, mapItemsPF_eq0, binaryF_eq0, andF_eq0, orF_eq0, argumentListF_eq0, argItemsF_eq0, callF_eq0, getItemF_eq0, pipeCallF_eq0, dotF_eq0, superF_eq0, yieldExprF_eq0, ifExprF_eq0, expressionF_eq0, parseParamsF_eq0, paramsLoopF_eq0, anonFunctionF_eq0, exprStatementF_eq0, blockF_eq0, blockStmtsF_eq0, functionF_eq0, whileStatementF_eq0, genericArgDefinitionsF_eq0, genericDefsLoopF_eq0, functionTypeAnnotationF_eq0, ftaArgsF_eq0, simpleTypeAnnotationF_eq0, simpleGenericsF_eq0, typeAnnotationF_eq0, unionTailF_eq0, fieldDeclarationF_eq0, varDeclarationF_eq0, typeDeclarationF_eq0, forStatementF_eq0, importStatementF_eq0, returnStatementF_eq0, statementF_eq0, methodF_eq0, classDeclarationF_eq0, classBodyF_eq0, methodSignatureF_eq0, interfaceDeclarationF_eq0, interfaceBodyF_eq0, funDeclarationF_eq0, declarationF_eq0, parseASTLoopF_eq0]
       exact h)
  | succ n ih =>
    obtain ⟨jC1, jC2, jC3, jC4, jC5, jC6, jC7, jC8, jC9, jC10, jC11, jC12, jC13, jC14, jC15, jC16, jC17, jC18, jC19, jC20, jC21, jC22, jC23, jC24, jC25, jC26, jC27, jC28, jC29, jC30, jC31, jC32, jC33, jC34, jC35, jC36, jC37, jC38, jC39, jC40, jC41, jC42, jC43, jC44, jC45, jC46, jC47, jC48, jC49, jC50, jC51, jC52, jC53, jC54, jC55, jC56⟩ := ih
    refine ⟨?_, ?_, ?_, ?_, ?_, ?_, ?_, ?_, ?_, ?_, ?_, ?_, ?_, ?_, ?_, ?_, ?_, ?_, ?_, ?_, ?_, ?_, ?_, ?_, ?_, ?_, ?_, ?_, ?_, ?_, ?_, ?_, ?_, ?_, ?_, ?_, ?_, ?_, ?_, ?_, ?_, ?_, ?_, ?_, ?_, ?_, ?_, ?_, ?_, ?_, ?_, ?_, ?_, ?_, ?_, ?_⟩
    · intros
      rename_i h
      simp only [parsePrecedenceF]
      repeat' split
      all_goals repeat'
        (first
           | apply jC3
           | apply jC2
           | apply PInv_consumeP
           | apply PInv_matchP2
           | apply PInv_advanceP
           | apply PInv_errorAtP
           | apply PInv_errorP
           | apply PInv_errorAtCurrentP
           | apply PInv_skipSemisF
           | apply PInv_parseVariableF2
           | exact h)
    · intros
      rename_i h
      simp only [infixLoopF]
      repeat' split
      all_goals repeat'
        (first
           | apply jC4
           | apply jC2
           | apply PInv_consumeP
           | apply PInv_matchP2
           | apply PInv_advanceP
           | apply PInv_errorAtP
           | apply PInv_errorP
           | apply PInv_errorAtCurrentP
           | apply PInv_skipSemisF
           | apply PInv_parseVariableF2
           | exact h)
    · intros
      rename_i st pf c h
      cases pf <;>
        (simp only [runPrefixF]
         repeat' split
         all_goals repeat'
           (first
              | apply jC5
              | apply jC6
              | apply jC7
              | apply jC8
              | apply jC10
              | apply jC23
              | apply jC21
              | apply jC22
              | apply PInv_consumeP
              | apply PInv_matchP2
              | apply PInv_advanceP
              | apply PInv_errorAtP
              | apply PInv_errorP
              | apply PInv_errorAtCurrentP
              | apply PInv_skipSemisF
              | apply PInv_parseVariableF2
              | exact h))
    · intros
      rename_i st inf0 l c h
      cases inf0 <;>
        (simp only [runInfixF]
         repeat' split
         all_goals repeat'
           (first
              | apply jC17
              | apply jC18
              | apply jC19
              | apply jC20
              | apply jC12
              | apply jC13
              | apply jC14
              | apply PInv_consumeP
              | apply PInv_matchP2
              | apply PInv_advanceP
              | apply PInv_errorAtP
              | apply PInv_errorP
              | apply PInv_errorAtCurrentP
              | apply PInv_skipSemisF
              | apply PInv_parseVariableF2
              | exact h))
    · intros
      rename_i h
      simp only [variableF]
      repeat' split
      all_goals repeat'
        (first
           | apply jC24
           | apply PInv_consumeP
           | apply PInv_matchP2
           | apply PInv_advanceP
           | apply PInv_errorAtP
           | apply PInv_errorP
           | apply PInv_errorAtCurrentP
           | apply PInv_skipSemisF
           | apply PInv_parseVariableF2
           | exact h)
    · intros
      rename_i h
      simp only [groupingF]
      repeat' split
      all_goals repeat'
        (first
           | apply jC24
           | apply PInv_consumeP
           | apply PInv_matchP2
           | apply PInv_advanceP
           | apply PInv_errorAtP
           | apply PInv_errorP
           | apply PInv_errorAtCurrentP
           | apply PInv_skipSemisF
           | apply PInv_parseVariableF2
           | exact h)
    · intros
      rename_i h
      simp only [unaryF]
      repeat' split
      all_goals repeat'
        (first
           | apply jC1
           | apply PInv_consumeP
           | apply PInv_matchP2
           | apply PInv_advanceP
           | apply PInv_errorAtP
           | apply PInv_errorP
           | apply PInv_errorAtCurrentP
           | apply PInv_skipSemisF
           | apply PInv_parseVariableF2
           | exact h)
    · intros
      rename_i h
      simp only [listF]
      repeat' split
      all_goals repeat'
        (first
           | apply jC9
           | apply PInv_consumeP
           | apply PInv_matchP2
           | apply PInv_advanceP
           | apply PInv_errorAtP
           | apply PInv_errorP
           | apply PInv_errorAtCurrentP
           | apply PInv_skipSemisF
           | apply PInv_parseVariableF2
           | exact h)
    · intros
      rename_i h
      simp only [listItemsF]
      repeat' split
      all_goals repeat'
        (first
           | apply jC24
           | apply jC9
           | apply PInv_consumeP
           | apply PInv_matchP2
           | apply PInv_advanceP
           | apply PInv_errorAtP
           | apply PInv_errorP
           | apply PInv_errorAtCurrentP
           | apply PInv_skipSemisF
           | apply PInv_parseVariableF2
           | exact h)
    · intros
      rename_i h
      simp only [mapF]
      repeat' split
      all_goals repeat'
        (first
           | apply jC11
           | apply PInv_consumeP
           | apply PInv_matchP2
           | apply PInv_advanceP
           | apply PInv_errorAtP
           | apply PInv_errorP
           | apply PInv_errorAtCurrentP
           | apply PInv_skipSemisF
           | apply PInv_parseVariableF2
           | exact h)
    · intros
      rename_i h
      simp only [mapItemsPF]
      repeat' split
      all_goals repeat'
        (first
           | apply jC24
           | apply jC11
           | apply PInv_consumeP
           | apply PInv_matchP2
           | apply PInv_advanceP
           | apply PInv_errorAtP
           | apply PInv_errorP
           | apply PInv_errorAtCurrentP
           | apply PInv_skipSemisF
           | apply PInv_parseVariableF2
           | exact h)
    · intros
      rename_i h
      simp only [binaryF]
      repeat' split
      all_goals repeat'
        (first
           | apply jC1
           | apply PInv_consumeP
           | apply PInv_matchP2
           | apply PInv_advanceP
           | apply PInv_errorAtP
           | apply PInv_errorP
           | apply PInv_errorAtCurrentP
           | apply PInv_skipSemisF
           | apply PInv_parseVariableF2
           | exact h)
    · intros
      rename_i h
      simp only [andF]
      repeat' split
      all_goals repeat'
        (first
           | apply jC1
           | apply PInv_consumeP
           | apply PInv_matchP2
           | apply PInv_advanceP
           | apply PInv_errorAtP
           | apply PInv_errorP
           | apply PInv_errorAtCurrentP
           | apply PInv_skipSemisF
           | apply PInv_parseVariableF2
           | exact h)
    · intros
      rename_i h
      simp only [orF]
      repeat' split
      all_goals repeat'
        (first
           | apply jC1
           | apply PInv_consumeP
           | apply PInv_matchP2
           | apply PInv_advanceP
           | apply PInv_errorAtP
           | apply PInv_errorP
           | apply PInv_errorAtCurrentP
           | apply PInv_skipSemisF
           | apply PInv_parseVariableF2
           | exact h)
    · intros
      rename_i h
      simp only [argumentListF]
      repeat' split
      all_goals repeat'
        (first
           | apply jC16
           | apply PInv_consumeP
           | apply PInv_matchP2
           | apply PInv_advanceP
           | apply PInv_errorAtP
           | apply PInv_errorP
           | apply PInv_errorAtCurrentP
           | apply PInv_skipSemisF
           | apply PInv_parseVariableF2
           | exact h)
    · intros
      rename_i h
      simp only [argItemsF]
      repeat' split
      all_goals repeat'
        (first
           | apply jC24
           | apply jC16
           | apply PInv_consumeP
           | apply PInv_matchP2
           | apply PInv_advanceP
           | apply PInv_errorAtP
           | apply PInv_errorP
           | apply PInv_errorAtCurrentP
           | apply PInv_skipSemisF
           | apply PInv_parseVariableF2
           | exact h)
    · intros
      rename_i h
      simp only [callF]
      repeat' split
      all_goals repeat'
        (first
           | apply jC15
           | apply PInv_consumeP
           | apply PInv_matchP2
           | apply PInv_advanceP
           | apply PInv_errorAtP
           | apply PInv_errorP
           | apply PInv_errorAtCurrentP
           | apply PInv_skipSemisF
           | apply PInv_parseVariableF2
           | exact h)
    · intros
      rename_i h
      simp only [getItemF]
      repeat' split
      all_goals repeat'
        (first
           | apply jC24
           | apply PInv_consumeP
           | apply PInv_matchP2
           | apply PInv_advanceP
           | apply PInv_errorAtP
           | apply PInv_errorP
           | apply PInv_errorAtCurrentP
           | apply PInv_skipSemisF
           | apply PInv_parseVariableF2
           | exact h)
    · intros
      rename_i h
      simp only [pipeCallF]
      repeat' split
      all_goals repeat'
        (first
           | apply jC1
           | apply PInv_consumeP
           | apply PInv_matchP2
           | apply PInv_advanceP
           | apply PInv_errorAtP
           | apply PInv_errorP
           | apply PInv_errorAtCurrentP
           | apply PInv_skipSemisF
           | apply PInv_parseVariableF2
           | exact h)
    · intros
      rename_i h
      simp only [dotF]
      repeat' split
      all_goals repeat'
        (first
           | apply jC24
           | apply PInv_consumeP
           | apply PInv_matchP2
           | apply PInv_advanceP
           | apply PInv_errorAtP
           | apply PInv_errorP
           | apply PInv_errorAtCurrentP
           | apply PInv_skipSemisF
           | apply PInv_parseVariableF2
           | exact h)
    · intros
      rename_i h
      simp only [superF]
      repeat' split
      all_goals repeat'
        (first
           | apply PInv_consumeP
           | apply PInv_matchP2
           | apply PInv_advanceP
           | apply PInv_errorAtP
           | apply PInv_errorP
           | apply PInv_errorAtCurrentP
           | apply PInv_skipSemisF
           | apply PInv_parseVariableF2
           | exact h)
    · intros
      rename_i h
      simp only [yieldExprF]
      repeat' split
      all_goals repeat'
        (first
           | apply jC1
           | apply PInv_consumeP
           | apply PInv_matchP2
           | apply PInv_advanceP
           | apply PInv_errorAtP
           | apply PInv_errorP
           | apply PInv_errorAtCurrentP
           | apply PInv_skipSemisF
           | apply PInv_parseVariableF2
           | exact h)
    · intros
      rename_i h
      simp only [ifExprF]
      repeat' split
      all_goals repeat'
        (first
           | apply jC24
           | apply jC47
           | apply PInv_consumeP
           | apply PInv_matchP2
           | apply PInv_advanceP
           | apply PInv_errorAtP
           | apply PInv_errorP
           | apply PInv_errorAtCurrentP
           | apply PInv_skipSemisF
           | apply PInv_parseVariableF2
           | exact h)
    · intros
      rename_i h
      simp only [expressionF]
      repeat' split
      all_goals repeat'
        (first
           | apply jC27
           | apply jC1
           | apply PInv_consumeP
           | apply PInv_matchP2
           | apply PInv_advanceP
           | apply PInv_errorAtP
           | apply PInv_errorP
           | apply PInv_errorAtCurrentP
           | apply PInv_skipSemisF
           | apply PInv_parseVariableF2
           | exact h)
    · intros
      rename_i h
      simp only [parseParamsF]
      repeat' split
      all_goals repeat'
        (first
           | apply jC26
           | apply PInv_consumeP
           | apply PInv_matchP2
           | apply PInv_advanceP
           | apply PInv_errorAtP
           | apply PInv_errorP
           | apply PInv_errorAtCurrentP
           | apply PInv_skipSemisF
           | apply PInv_parseVariableF2
           | exact h)
    · intros
      rename_i h
      simp only [paramsLoopF]
      repeat' split
      all_goals repeat'
        (first
           | apply jC39
           | apply jC26
           | apply PInv_consumeP
           | apply PInv_matchP2
           | apply PInv_advanceP
           | apply PInv_errorAtP
           | apply PInv_errorP
           | apply PInv_errorAtCurrentP
           | apply PInv_skipSemisF
           | apply PInv_parseVariableF2
           | exact h)
    · intros
      rename_i h
      simp only [anonFunctionF]
      repeat' split
      all_goals repeat'
        (first
           | apply jC33
           | apply jC25
           | apply jC39
           | apply jC29
           | apply jC24
           | apply PInv_consumeP
           | apply PInv_matchP2
           | apply PInv_advanceP
           | apply PInv_errorAtP
           | apply PInv_errorP
           | apply PInv_errorAtCurrentP
           | apply PInv_skipSemisF
           | apply PInv_parseVariableF2
           | exact h)
    · intros
      rename_i h
      simp only [exprStatementF]
      repeat' split
      all_goals repeat'
        (first
           | apply jC24
           | apply PInv_consumeP
           | apply PInv_matchP2
           | apply PInv_advanceP
           | apply PInv_errorAtP
           | apply PInv_errorP
           | apply PInv_errorAtCurrentP
           | apply PInv_skipSemisF
           | apply PInv_parseVariableF2
           | exact h)
    · intros
      rename_i h
      simp only [blockF]
      repeat' split
      all_goals repeat'
        (first
           | apply jC30
           | apply PInv_consumeP
           | apply PInv_matchP2
           | apply PInv_advanceP
           | apply PInv_errorAtP
           | apply PInv_errorP
           | apply PInv_errorAtCurrentP
           | apply PInv_skipSemisF
           | apply PInv_parseVariableF2
           | exact h)
    · intros
      rename_i h
      simp only [blockStmtsF]
      repeat' split
      all_goals repeat'
        (first
           | apply jC55
           | apply jC30
           | apply PInv_consumeP
           | apply PInv_matchP2
           | apply PInv_advanceP
           | apply PInv_errorAtP
           | apply PInv_errorP
           | apply PInv_errorAtCurrentP
           | apply PInv_skipSemisF
           | apply PInv_parseVariableF2
           | exact h)
    · intros
      rename_i h
      simp only [functionF]
      repeat' split
      all_goals repeat'
        (first
           | apply jC33
           | apply jC25
           | apply jC39
           | apply jC29
           | apply PInv_consumeP
           | apply PInv_matchP2
           | apply PInv_advanceP
           | apply PInv_errorAtP
           | apply PInv_errorP
           | apply PInv_errorAtCurrentP
           | apply PInv_skipSemisF
           | apply PInv_parseVariableF2
           | exact h)
    · intros
      rename_i h
      simp only [whileStatementF]
      repeat' split
      all_goals repeat'
        (first
           | apply jC24
           | apply jC47
           | apply PInv_consumeP
           | apply PInv_matchP2
           | apply PInv_advanceP
           | apply PInv_errorAtP
           | apply PInv_errorP
           | apply PInv_errorAtCurrentP
           | apply PInv_skipSemisF
           | apply PInv_parseVariableF2
           | exact h)
    · intros
      rename_i h
      simp only [genericArgDefinitionsF]
      repeat' split
      all_goals repeat'
        (first
           | apply jC34
           | apply PInv_consumeP
           | apply PInv_matchP2
           | apply PInv_advanceP
           | apply PInv_errorAtP
           | apply PInv_errorP
           | apply PInv_errorAtCurrentP
           | apply PInv_skipSemisF
           | apply PInv_parseVariableF2
           | exact h)
    · intros
      rename_i h
      simp only [genericDefsLoopF]
      repeat' split
      all_goals repeat'
        (first
           | apply jC39
           | apply jC34
           | apply PInv_consumeP
           | apply PInv_matchP2
           | apply PInv_advanceP
           | apply PInv_errorAtP
           | apply PInv_errorP
           | apply PInv_errorAtCurrentP
           | apply PInv_skipSemisF
           | apply PInv_parseVariableF2
           | exact h)
    · intros
      rename_i h
      simp only [functionTypeAnnotationF]
      repeat' split
      all_goals repeat'
        (first
           | apply jC36
           | apply jC39
           | apply PInv_consumeP
           | apply PInv_matchP2
           | apply PInv_advanceP
           | apply PInv_errorAtP
           | apply PInv_errorP
           | apply PInv_errorAtCurrentP
           | apply PInv_skipSemisF
           | apply PInv_parseVariableF2
           | exact h)
    · intros
      rename_i h
      simp only [ftaArgsF]
      repeat' split
      all_goals repeat'
        (first
           | apply jC39
           | apply jC36
           | apply PInv_consumeP
           | apply PInv_matchP2
           | apply PInv_advanceP
           | apply PInv_errorAtP
           | apply PInv_errorP
           | apply PInv_errorAtCurrentP
           | apply PInv_skipSemisF
           | apply PInv_parseVariableF2
           | exact h)
    · intros
      rename_i h
      simp only [simpleTypeAnnotationF]
      repeat' split
      all_goals repeat'
        (first
           | apply jC38
           | apply PInv_consumeP
           | apply PInv_matchP2
           | apply PInv_advanceP
           | apply PInv_errorAtP
           | apply PInv_errorP
           | apply PInv_errorAtCurrentP
           | apply PInv_skipSemisF
           | apply PInv_parseVariableF2
           | exact h)
    · intros
      rename_i h
      simp only [simpleGenericsF]
      repeat' split
      all_goals repeat'
        (first
           | apply jC39
           | apply jC38
           | apply PInv_consumeP
           | apply PInv_matchP2
           | apply PInv_advanceP
           | apply PInv_errorAtP
           | apply PInv_errorP
           | apply PInv_errorAtCurrentP
           | apply PInv_skipSemisF
           | apply PInv_parseVariableF2
           | exact h)
    · intros
      rename_i h
      simp only [typeAnnotationF]
      repeat' split
      all_goals repeat'
        (first
           | apply jC33
           | apply jC35
           | apply jC37
           | apply jC40
           | apply PInv_consumeP
           | apply PInv_matchP2
           | apply PInv_advanceP
           | apply PInv_errorAtP
           | apply PInv_errorP
           | apply PInv_errorAtCurrentP
           | apply PInv_skipSemisF
           | apply PInv_parseVariableF2
           | exact h)
    · intros
      rename_i h
      simp only [unionTailF]
      repeat' split
      all_goals repeat'
        (first
           | apply jC39
           | apply PInv_consumeP
           | apply PInv_matchP2
           | apply PInv_advanceP
           | apply PInv_errorAtP
           | apply PInv_errorP
           | apply PInv_errorAtCurrentP
           | apply PInv_skipSemisF
           | apply PInv_parseVariableF2
           | exact h)
    · intros
      rename_i h
      simp only [fieldDeclarationF]
      repeat' split
      all_goals repeat'
        (first
           | apply jC39
           | apply PInv_consumeP
           | apply PInv_matchP2
           | apply PInv_advanceP
           | apply PInv_errorAtP
           | apply PInv_errorP
           | apply PInv_errorAtCurrentP
           | apply PInv_skipSemisF
           | apply PInv_parseVariableF2
           | exact h)
    · intros
      rename_i h
      simp only [varDeclarationF]
      repeat' split
      all_goals repeat'
        (first
           | apply jC39
           | apply jC24
           | apply PInv_consumeP
           | apply PInv_matchP2
           | apply PInv_advanceP
           | apply PInv_errorAtP
           | apply PInv_errorP
           | apply PInv_errorAtCurrentP
           | apply PInv_skipSemisF
           | apply PInv_parseVariableF2
           | exact h)
    · intros
      rename_i h
      simp only [typeDeclarationF]
      repeat' split
      all_goals repeat'
        (first
           | apply jC33
           | apply jC39
           | apply PInv_consumeP
           | apply PInv_matchP2
           | apply PInv_advanceP
           | apply PInv_errorAtP
           | apply PInv_errorP
           | apply PInv_errorAtCurrentP
           | apply PInv_skipSemisF
           | apply PInv_parseVariableF2
           | exact h)
    · intros
      rename_i h
      simp only [forStatementF]
      repeat' split
      all_goals repeat'
        (first
           | apply jC42
           | apply jC28
           | apply jC24
           | apply jC47
           | apply PInv_consumeP
           | apply PInv_matchP2
           | apply PInv_advanceP
           | apply PInv_errorAtP
           | apply PInv_errorP
           | apply PInv_errorAtCurrentP
           | apply PInv_skipSemisF
           | apply PInv_parseVariableF2
           | exact h)
    · intros
      rename_i h
      simp only [importStatementF]
      repeat' split
      all_goals repeat'
        (first
           | apply PInv_consumeP
           | apply PInv_matchP2
           | apply PInv_advanceP
           | apply PInv_errorAtP
           | apply PInv_errorP
           | apply PInv_errorAtCurrentP
           | apply PInv_skipSemisF
           | apply PInv_parseVariableF2
           | exact h)
    · intros
      rename_i h
      simp only [returnStatementF]
      repeat' split
      all_goals repeat'
        (first
           | apply jC24
           | apply PInv_consumeP
           | apply PInv_matchP2
           | apply PInv_advanceP
           | apply PInv_errorAtP
           | apply PInv_errorP
           | apply PInv_errorAtCurrentP
           | apply PInv_skipSemisF
           | apply PInv_parseVariableF2
           | exact h)
    · intros
      rename_i h
      simp only [statementF]
      repeat' split
      all_goals repeat'
        (first
           | apply jC46
           | apply jC32
           | apply jC44
           | apply jC29
           | apply jC45
           | apply jC28
           | apply PInv_consumeP
           | apply PInv_matchP2
           | apply PInv_advanceP
           | apply PInv_errorAtP
           | apply PInv_errorP
           | apply PInv_errorAtCurrentP
           | apply PInv_skipSemisF
           | apply PInv_parseVariableF2
           | exact h)
    · intros
      rename_i h
      simp only [methodF]
      repeat' split
      all_goals repeat'
        (first
           | apply jC31
           | apply PInv_consumeP
           | apply PInv_matchP2
           | apply PInv_advanceP
           | apply PInv_errorAtP
           | apply PInv_errorP
           | apply PInv_errorAtCurrentP
           | apply PInv_skipSemisF
           | apply PInv_parseVariableF2
           | exact h)
    · intros
      rename_i h
      simp only [classDeclarationF]
      repeat' split
      all_goals repeat'
        (first
           | apply jC33
           | apply jC5
           | apply jC50
           | apply PInv_consumeP
           | apply PInv_matchP2
           | apply PInv_advanceP
           | apply PInv_errorAtP
           | apply PInv_errorP
           | apply PInv_errorAtCurrentP
           | apply PInv_skipSemisF
           | apply PInv_parseVariableF2
           | exact h)
    · intros
      rename_i h
      simp only [classBodyF]
      repeat' split
      all_goals repeat'
        (first
           | apply jC42
           | apply jC48
           | apply jC50
           | apply PInv_consumeP
           | apply PInv_matchP2
           | apply PInv_advanceP
           | apply PInv_errorAtP
           | apply PInv_errorP
           | apply PInv_errorAtCurrentP
           | apply PInv_skipSemisF
           | apply PInv_parseVariableF2
           | exact h)
    · intros
      rename_i h
      simp only [methodSignatureF]
      repeat' split
      all_goals repeat'
        (first
           | apply jC33
           | apply jC25
           | apply jC39
           | apply PInv_consumeP
           | apply PInv_matchP2
           | apply PInv_advanceP
           | apply PInv_errorAtP
           | apply PInv_errorP
           | apply PInv_errorAtCurrentP
           | apply PInv_skipSemisF
           | apply PInv_parseVariableF2
           | exact h)
    · intros
      rename_i h
      simp only [interfaceDeclarationF]
      repeat' split
      all_goals repeat'
        (first
           | apply jC33
           | apply jC41
           | apply jC53
           | apply PInv_consumeP
           | apply PInv_matchP2
           | apply PInv_advanceP
           | apply PInv_errorAtP
           | apply PInv_errorP
           | apply PInv_errorAtCurrentP
           | apply PInv_skipSemisF
           | apply PInv_parseVariableF2
           | exact h)
    · intros
      rename_i h
      simp only [interfaceBodyF]
      repeat' split
      all_goals repeat'
        (first
           | apply jC42
           | apply jC51
           | apply jC53
           | apply PInv_consumeP
           | apply PInv_matchP2
           | apply PInv_advanceP
           | apply PInv_errorAtP
           | apply PInv_errorP
           | apply PInv_errorAtCurrentP
           | apply PInv_skipSemisF
           | apply PInv_parseVariableF2
           | exact h)
    · intros
      rename_i h
      simp only [funDeclarationF]
      repeat' split
      all_goals repeat'
        (first
           | apply jC31
           | apply PInv_consumeP
           | apply PInv_matchP2
           | apply PInv_advanceP
           | apply PInv_errorAtP
           | apply PInv_errorP
           | apply PInv_errorAtCurrentP
           | apply PInv_skipSemisF
           | apply PInv_parseVariableF2
           | exact h)
    · intros
      rename_i h
      simp only [declarationF]
      repeat' split
      all_goals repeat'
        (first
           | apply jC49
           | apply jC54
           | apply jC42
           | apply jC52
           | apply jC43
           | apply jC47
           | apply PInv_consumeP
           | apply PInv_matchP2
           | apply PInv_advanceP
           | apply PInv_errorAtP
           | apply PInv_errorP
           | apply PInv_errorAtCurrentP
           | apply PInv_skipSemisF
           | apply PInv_parseVariableF2
           | exact h)
    · intros
      rename_i h
      simp only [parseASTLoopF]
      repeat' split
      all_goals repeat'
        (first
           | apply jC55
           | apply jC56
           | apply PInv_consumeP
           | apply PInv_matchP2
           | apply PInv_advanceP
           | apply PInv_errorAtP
           | apply PInv_errorP
           | apply PInv_errorAtCurrentP
           | apply PInv_skipSemisF
           | apply PInv_parseVariableF2
           | exact h)


end Saffron

namespace Saffron

set_option maxHeartbeats 1000000 in
/-- C8: for every token stream (and fuel), `parseAST` returns the
top-level statement sequence when no diagnostic was reported, and returns
null exactly when at least one diagnostic was reported. -/
theorem parseAST_none_iff_diag_reported (fuel : Nat) (toks : List Token) :
    ((parseASTF fuel toks).1 = none ↔ (parseASTF fuel toks).2.diags ≠ []) := by
  obtain ⟨-, -, -, -, -, -, -, -, -, -, -, -, -, -, -, -, -, -, -, -, -, -, -, -, -, -, -, -, -, -, -, -, -, -, -, -, -, -, -, -, -, -, -, -, -, -, -, -, -, -, -, -, -, -, -, iLoop⟩ := parserPInvAll fuel
  have h2 : PInv (parseASTF fuel toks).2 := by
    simp only [parseASTF]
    exact PInv_consumeP (iLoop _ _ (PInv_advanceP (by simp [PInv])))
  have h1 : ((parseASTF fuel toks).1 = none ↔
      (parseASTF fuel toks).2.hadError = true) := by
    simp only [parseASTF]
    split
    · rename_i hC
      simp [hC]
    · rename_i hC
      simp [hC]
  rw [h1]
  exact h2

end Saffron
